import Mathlib

set_option autoImplicit false

/-! Verification of the call-orchestration state machine implemented by the
llm_prompt decorator in src/langchain_decorators/prompt_decorator.py.
The definitions below are a shallow embedding of that file: the wrapper and
async_wrapper closures, prepare_call_args, get_retry_parse_call_args,
process_results and _generate_output_with_function_call, over stubbed
external collaborators (template resolver, chain executor, output parser,
retry completion), which the source consumes through stable interfaces. -/

/-- Python runtime values, restricted to the shapes the orchestration code
inspects (truthiness, isinstance bool, attribute dictionaries, key lookup). -/
inductive PyVal where
  | none
  | bool (b : Bool)
  | int (n : Int)
  | str (s : String)
  | list (xs : List PyVal)
  | dict (kvs : List (String × PyVal))
  | obj (attrs : List (String × PyVal))
  | foreign (tag : String)

/-- Python truthiness, as used by conditions such as `if capture_stream and ...`. -/
def PyVal.truthy : PyVal → Bool
  | .none => false
  | .bool b => b
  | .int n => n != 0
  | .str s => s != ""
  | .list xs => !xs.isEmpty
  | .dict kvs => !kvs.isEmpty
  | .obj _ => true
  | .foreign _ => true

/-- Python isinstance(x, bool). -/
def PyVal.isBool : PyVal → Bool
  | .bool _ => true
  | _ => false

/-- Python hasattr(x, "__dict__"): only proper objects expose an attribute dict. -/
def PyVal.hasDunderDict : PyVal → Bool
  | .obj _ => true
  | _ => false

/-- Keyword-argument dictionaries: Python string-keyed dicts in insertion order. -/
abbrev Kw := List (String × PyVal)

/-- Python `k in kwargs`. -/
def hasKey (kw : Kw) (k : String) : Bool := kw.any (fun p => p.1 == k)

/-- Python `kwargs.get(k)` / `kwargs[k]` (first matching key). -/
def getVal (kw : Kw) (k : String) : Option PyVal :=
  (kw.find? (fun p => p.1 == k)).map (fun p => p.2)

/-- Python `del kwargs[k]`. -/
def delKey (kw : Kw) (k : String) : Kw := kw.filter (fun p => decide (p.1 ≠ k))

/-- Python `kwargs[k] = v`: overwrite in place, or append a new key. -/
def setKey (kw : Kw) (k : String) (v : PyVal) : Kw :=
  if hasKey kw k then kw.map (fun p => if p.1 = k then (p.1, v) else p)
  else kw ++ [(k, v)]

/-- Python dict-splat merge, as in the source line
kwargs = \x7b**prompt_template.default_values, **kwargs\x7d:
keys of the first dict in order with values overridden by the second,
then keys only in the second dict. -/
def dictMerge (a b : Kw) : Kw :=
  a.map (fun p => (p.1, (getVal b p.1).getD p.2)) ++ b.filter (fun p => !hasKey a p.1)

/-- Python `kwargs.pop(k)` guarded by `if k in kwargs`, with a default otherwise. -/
def popKw (kw : Kw) (k : String) (dflt : PyVal) : PyVal × Kw :=
  if hasKey kw k then ((getVal kw k).getD dflt, delKey kw k) else (dflt, kw)

/-- Exceptions raised by the orchestration code or by its collaborators.
parseError models langchain's OutputParserException; a payload of
some (original, needsPrompt) models the subclass
OutputParserExceptionWithOriginal carrying the unparsed text and the
original_prompt_needed_on_retry flag, while a payload of none models a plain
OutputParserException without original text. -/
inductive PyErr where
  | valueError
  | positionalArgsError
  | unexpectedInput (keys valid : List String)
  | missingInput (keys : List String)
  | parseError (original : Option (String × Bool))
  | formatInstructionsError
  | invalidFunctionType
  | keyError (k : String)
  | attributeError (a : String)
  | runtimeError
  | externalError (tag : String)
deriving DecidableEq

/-- Stub of the resolved output parser collaborator: its kind (whether it is an
OpenAIFunctionsPydanticOutputParser), its parse function, and the result of
get_format_instructions (none models Python None, some "" an empty string;
both are falsy under the source's `if not format_instructions` check). -/
structure OutputParser where
  isPydanticFnParser : Bool
  parse : PyVal → Except PyErr PyVal
  format_instructions : Option String

/-- Stub of the PromptDecoratorTemplate produced by the template resolver:
the declared input names, default values, and the resolved output parser. -/
structure TemplateDescriptor where
  input_variables : List String
  default_values : Kw
  outputParser : Option OutputParser

/-- The function_call_info payload reported by the chain. -/
structure FunctionCallInfo where
  name : String
  arguments : PyVal

/-- Shape of result_data["function"]: a langchain BaseTool, a plain sync or
async callable, or something else (which the packaging code rejects). -/
inductive FuncRef where
  | tool
  | syncCallable
  | asyncCallable
  | notCallable

/-- The dictionary returned by executing the chain. output models
result_data[llmChain.output_key]; function_call_info is doubly optional:
the outer layer is key presence ("function_call_info" in result_data) and the
inner layer is truthiness of the stored value. -/
structure ResultData where
  output : PyVal
  text : PyVal
  message : PyVal
  function_call_info : Option (Option FunctionCallInfo)
  function : Option FuncRef

/-- Which chain class prepare_call_args constructed. -/
inductive ChainKind where
  | withFunctions (functions : PyVal)
  | plainChain

/-- The chain binding assembled per call. -/
structure ChainSpec where
  kind : ChainKind
  captureStream : PyVal
  memory : PyVal

/-- The call_args dictionary handed to the chain. -/
structure CallArgs where
  inputs : Kw
  callbacks : PyVal
  return_only_outputs : Bool := true

/-- Decoration-time configuration captured by the decorator closure:
the resolved _capture_stream value, whether an explicit llm was fixed,
stop_tokens, the format-instructions parameter key, and the retry flag. -/
structure Config where
  captureStreamSetting : PyVal
  fixedLLM : Bool
  stopTokens : List String
  formatInstructionsKey : String
  retryOnParseError : Bool

/-- External collaborators of one decorated function, stubbed as pure
functions: the resolved template descriptor, the ambient streaming context,
chain execution (llmChain(**chain_args) / await llmChain.acall(**chain_args)),
prompt formatting for the retry prompt, and the one-shot retry completion
(retryChain.predict / apredict, taking original_prompt, original and
format_instructions). -/
structure Collab where
  template : TemplateDescriptor
  streamingActive : Bool
  chainExec : ChainSpec → CallArgs → Except PyErr ResultData
  formatPrompt : CallArgs → String
  retryExec : String → String → String → Except PyErr PyVal

/-- Decoration-time resolution of _capture_stream (source lines 121-127):
the prompt-type default applies when the decorator argument is None, and a
truthy setting on a synchronous function is downgraded to False. -/
def decorationCaptureStream (promptTypeTruthy : Bool) (promptTypeCaptureStream : PyVal)
    (captureStreamArg : PyVal) (isAsync : Bool) : PyVal :=
  let v := if promptTypeTruthy then
             (match captureStreamArg with
              | .none => promptTypeCaptureStream
              | x => x)
           else captureStreamArg
  if v.truthy && !isAsync then PyVal.bool false else v

/-- Source lines 144-146: a truthy capture_stream value is downgraded to False
when no streaming context is active. -/
def streamDowngrade (streamingActive : Bool) (v : PyVal) : PyVal :=
  if v.truthy && !streamingActive then PyVal.bool false else v

/-- Source lines 136-146: start from the decoration-time _capture_stream; if
the caller passed a capture_stream kwarg, check isinstance(capture_stream,
bool) on the CURRENT value (the decoration-time one) before overwriting it
with the kwarg and deleting the key; finally apply the streaming-context
downgrade. -/
def resolveCaptureStream (setting : PyVal) (streamingActive : Bool) (kwargs : Kw) :
    Except PyErr (PyVal × Kw) :=
  if hasKey kwargs "capture_stream" then
    if !setting.isBool then Except.error PyErr.valueError
    else
      Except.ok
        (streamDowngrade streamingActive ((getVal kwargs "capture_stream").getD PyVal.none),
         delKey kwargs "capture_stream")
  else Except.ok (streamDowngrade streamingActive setting, kwargs)

/-- Source lines 149-167: the llm_selector_rule_key kwarg is popped only in
the `if not llm` branch, and only when its value is truthy. -/
def popSelectorRuleKey (fixedLLM : Bool) (kwargs : Kw) : Kw :=
  if fixedLLM then kwargs
  else if ((getVal kwargs "llm_selector_rule_key").getD PyVal.none).truthy then
    delKey kwargs "llm_selector_rule_key"
  else kwargs

/-- Source lines 181-187: a single positional argument with a __dict__ becomes
the input-variables source; a single positional without one is silently
ignored; two or more positional arguments raise. -/
def resolveInputSource (args : List PyVal) : Except PyErr (Option (List (String × PyVal))) :=
  match args with
  | [] => Except.ok Option.none
  | [a] =>
    match a with
    | PyVal.obj attrs => Except.ok (some attrs)
    | _ => Except.ok Option.none
  | _ => Except.error PyErr.positionalArgsError

/-- Source line 199: default values are merged at lowest precedence, guarded by
the truthiness of the default-values dict. -/
def mergeDefaults (defaults kwargs : Kw) : Kw :=
  if defaults.isEmpty then kwargs else dictMerge defaults kwargs

/-- callbacks.append(StreamingContext.StreamingContextCallback()): appending to
a non-list raises. -/
def appendStreamingCallback (cb : PyVal) : Except PyErr PyVal :=
  match cb with
  | .list xs => Except.ok (.list (xs ++ [PyVal.foreign "StreamingContextCallback"]))
  | _ => Except.error (PyErr.attributeError "append")

/-- Source lines 221-228: chain construction. A truthy functions kwarg selects
the function-support chain; otherwise an OpenAIFunctionsPydanticOutputParser
builds its llm function, stores it under the function_call key of kwargs and
also selects the function-support chain; otherwise the plain chain is built. -/
def buildChain (parserOpt : Option OutputParser) (functions memory captureStream : PyVal)
    (kwargs : Kw) : Kw × ChainSpec :=
  if functions.truthy then
    (kwargs, { kind := ChainKind.withFunctions functions, captureStream := captureStream, memory := memory })
  else
    match parserOpt with
    | some p =>
      if p.isPydanticFnParser then
        let fn := PyVal.foreign "llm_function"
        (setKey kwargs "function_call" fn,
         { kind := ChainKind.withFunctions (PyVal.list [fn]), captureStream := captureStream, memory := memory })
      else (kwargs, { kind := ChainKind.plainChain, captureStream := captureStream, memory := memory })
    | Option.none => (kwargs, { kind := ChainKind.plainChain, captureStream := captureStream, memory := memory })

/-- Source line 229: the keys exempted from the unexpected-input check besides
the declared input variables. -/
def otherSupportedKwargs : List String := ["stop", "callbacks", "function_call"]

/-- Source line 230: the unexpected-inputs list comprehension. -/
def unexpectedInputsOf (inputVars : List String) (kwargs : Kw) : List String :=
  (kwargs.map Prod.fst).filter
    (fun k => !(inputVars.contains k) && !(otherSupportedKwargs.contains k))

/-- Evaluation of `memory and memory.memory_key`: a falsy memory contributes
nothing; a truthy one must expose a memory_key attribute (else
AttributeError); a non-string memory_key never matches a missing input name. -/
def memoryKeyOf (memory : PyVal) : Except PyErr (Option String) :=
  if memory.truthy then
    match memory with
    | .obj attrs =>
      match getVal attrs "memory_key" with
      | some (.str k) => Except.ok (some k)
      | some _ => Except.ok Option.none
      | Option.none => Except.error (PyErr.attributeError "memory_key")
    | _ => Except.error (PyErr.attributeError "memory_key")
  else Except.ok Option.none

/-- Source lines 242-249: resolve each still-missing input by attribute lookup
on the positional source object, raising on the first absent attribute. -/
def resolveFromSource (attrs : List (String × PyVal)) :
    List String → Kw → Except PyErr Kw
  | [], kwargs => Except.ok kwargs
  | k :: rest, kwargs =>
    match getVal attrs k with
    | some v => resolveFromSource attrs rest (setKey kwargs k v)
    | Option.none => Except.error (PyErr.missingInput [k])

/-- Source lines 235-237: exempt the format-instructions key from the missing
list and pre-fill it with None. -/
def fiStepOf (fiKey : String) (missing0 : List String) (kwargs : Kw) : List String × Kw :=
  if missing0.contains fiKey then (missing0.erase fiKey, setKey kwargs fiKey PyVal.none)
  else (missing0, kwargs)

/-- Source lines 238-239: exempt the active memory's key from the missing
list. -/
def memErase (memKey : Option String) (missing : List String) : List String :=
  match memKey with
  | some mk => if missing.contains mk then missing.erase mk else missing
  | Option.none => missing

/-- Source lines 241-254: after the exemptions, remaining missing names are
resolved from the positional source when one was given, and otherwise raise
MissingInput naming all of them. -/
def validateInputsTail (fiKey : String) (inputVars : List String)
    (source : Option (List (String × PyVal))) (kwargs : Kw) (memKey : Option String) :
    Except PyErr Kw :=
  if (memErase memKey
      (fiStepOf fiKey (inputVars.filter (fun k => !(hasKey kwargs k))) kwargs).1).isEmpty then
    Except.ok (fiStepOf fiKey (inputVars.filter (fun k => !(hasKey kwargs k))) kwargs).2
  else
    match source with
    | some attrs =>
      resolveFromSource attrs
        (memErase memKey
          (fiStepOf fiKey (inputVars.filter (fun k => !(hasKey kwargs k))) kwargs).1)
        (fiStepOf fiKey (inputVars.filter (fun k => !(hasKey kwargs k))) kwargs).2
    | Option.none =>
      Except.error (PyErr.missingInput
        (memErase memKey
          (fiStepOf fiKey (inputVars.filter (fun k => !(hasKey kwargs k))) kwargs).1))

/-- Source lines 234-254: the missing-inputs validation, combining the
exemptions with the resolution or failure for the remaining names. -/
def validateInputs (fiKey : String) (inputVars : List String) (memory : PyVal)
    (source : Option (List (String × PyVal))) (kwargs : Kw) : Except PyErr Kw :=
  match memoryKeyOf memory with
  | Except.error e => Except.error e
  | Except.ok memKey => validateInputsTail fiKey inputVars source kwargs memKey

/-- Source line 258: a truthy stop_tokens setting is written into the inputs
under the stop key. -/
def applyStopTokens (stopTokens : List String) (kwargs : Kw) : Kw :=
  if stopTokens.isEmpty then kwargs
  else setKey kwargs "stop" (PyVal.list (stopTokens.map PyVal.str))

/-- Final stretch of prepare_call_args (source lines 229-261): the
unexpected-inputs check over the post-construction kwargs, the missing-inputs
validation, the stop-token write and the assembly of call_args. memory is the
popped memory value, bc the kwargs/chain pair produced by buildChain. -/
def prepareStage4 (cfg : Config) (collab : Collab)
    (source : Option (List (String × PyVal))) (callbacks : PyVal) (memory : PyVal)
    (bc : Kw × ChainSpec) : Except PyErr (ChainSpec × CallArgs) :=
  if (unexpectedInputsOf collab.template.input_variables bc.1).isEmpty then
    match validateInputs cfg.formatInstructionsKey collab.template.input_variables
        memory source bc.1 with
    | Except.error e => Except.error e
    | Except.ok kwargs3 =>
      Except.ok (bc.2,
        { inputs := applyStopTokens cfg.stopTokens kwargs3, callbacks := callbacks })
  else
    Except.error (PyErr.unexpectedInput
      (unexpectedInputsOf collab.template.input_variables bc.1)
      collab.template.input_variables)

/-- Source lines 210-228 wired into the final stretch: pop memory and
functions from the kwargs left after the callbacks pop, build the chain. -/
def prepareStage3 (cfg : Config) (collab : Collab) (captureStream : PyVal)
    (source : Option (List (String × PyVal))) (callbacks : PyVal) (kwAfterCallbacks : Kw) :
    Except PyErr (ChainSpec × CallArgs) :=
  prepareStage4 cfg collab source callbacks
    (popKw kwAfterCallbacks "memory" PyVal.none).1
    (buildChain collab.template.outputParser
      (popKw (popKw kwAfterCallbacks "memory" PyVal.none).2 "functions" PyVal.none).1
      (popKw kwAfterCallbacks "memory" PyVal.none).1
      captureStream
      (popKw (popKw kwAfterCallbacks "memory" PyVal.none).2 "functions" PyVal.none).2)

/-- Source lines 201-208 wired into the rest: pop callbacks from the merged
kwargs and append the streaming callback when capture is on. -/
def prepareStage2 (cfg : Config) (collab : Collab) (captureStream : PyVal)
    (source : Option (List (String × PyVal))) (kwargs2 : Kw) :
    Except PyErr (ChainSpec × CallArgs) :=
  match (if captureStream.truthy
         then appendStreamingCallback (popKw kwargs2 "callbacks" (PyVal.list [])).1
         else Except.ok (popKw kwargs2 "callbacks" (PyVal.list [])).1) with
  | Except.error e => Except.error e
  | Except.ok callbacks =>
    prepareStage3 cfg collab captureStream source callbacks
      (popKw kwargs2 "callbacks" (PyVal.list [])).2

/-- The whole of prepare_call_args (source lines 133-261), composed from the
stages above in source order. -/
def prepareCallArgs (cfg : Config) (collab : Collab) (args : List PyVal) (kwargs : Kw) :
    Except PyErr (ChainSpec × CallArgs) :=
  match resolveCaptureStream cfg.captureStreamSetting collab.streamingActive kwargs with
  | Except.error e => Except.error e
  | Except.ok csAndKw =>
    match resolveInputSource args with
    | Except.error e => Except.error e
    | Except.ok inputVariablesSource =>
      prepareStage2 cfg collab csAndKw.1 inputVariablesSource
        (mergeDefaults collab.template.default_values
          (popSelectorRuleKey cfg.fixedLLM csAndKw.2))

/-- process_results (source lines 283-295). For an
OpenAIFunctionsPydanticOutputParser the parser is applied to
result_data["function_call_info"]["arguments"] and both function-call keys are
popped from result_data; for any other parser the parser is applied to the
extracted output only when that output is truthy. -/
def processResults (parserOpt : Option OutputParser) (rd : ResultData) (result : PyVal) :
    Except PyErr (PyVal × ResultData) :=
  match parserOpt with
  | Option.none => Except.ok (result, rd)
  | some p =>
    if p.isPydanticFnParser then
      match rd.function_call_info with
      | some (some fci) =>
        match p.parse fci.arguments with
        | Except.error e => Except.error e
        | Except.ok v =>
          match rd.function with
          | some _ =>
            Except.ok (v, { rd with function_call_info := Option.none, function := Option.none })
          | Option.none => Except.error (PyErr.keyError "function")
      | some Option.none => Except.error PyErr.runtimeError
      | Option.none => Except.error (PyErr.keyError "function_call_info")
    else if result.truthy then
      match p.parse result with
      | Except.error e => Except.error e
      | Except.ok v => Except.ok (v, rd)
    else Except.ok (result, rd)

/-- The langchain single-argument tool convention (source lines 385-387):
an arguments dict whose sole key is __arg1 is unwrapped to its bare value. -/
def toolInputOf (arguments : PyVal) : PyVal :=
  match arguments with
  | .dict kvs =>
    if hasKey kvs "__arg1" && kvs.length == 1 then (getVal kvs "__arg1").getD PyVal.none
    else arguments
  | _ => arguments

/-- The sync / async forwarding callables stored in an OutputWithFunctionCall:
for a tool, a thin closure over the resolved tool input and the
caller-supplied callbacks; for a plain callable, the callable itself. -/
inductive BoundFunction where
  | toolForward (toolInput : PyVal) (callbacks : PyVal)
  | plainRef

/-- The OutputWithFunctionCall result object. -/
structure OutputWithFunctionCall where
  output : PyVal
  output_text : PyVal
  output_message : PyVal
  function : Option BoundFunction := Option.none
  function_async : Option BoundFunction := Option.none
  function_name : Option String := Option.none
  function_args : Option PyVal := Option.none
  function_arguments : Option PyVal := Option.none

/-- _generate_output_with_function_call (source lines 376-425). -/
def generateOutputWithFunctionCall (result : PyVal) (rd : ResultData) (callbacks : PyVal) :
    Except PyErr OutputWithFunctionCall :=
  match rd.function with
  | Option.none => Except.error (PyErr.keyError "function")
  | some f =>
    match rd.function_call_info with
    | some (some fci) =>
      match f with
      | FuncRef.tool =>
        let ti := toolInputOf fci.arguments
        Except.ok
          { output := result, output_text := rd.text, output_message := rd.message,
            function := some (BoundFunction.toolForward ti callbacks),
            function_async := some (BoundFunction.toolForward ti callbacks),
            function_name := some fci.name,
            function_args := some fci.arguments,
            function_arguments := some ti }
      | FuncRef.syncCallable =>
        Except.ok
          { output := result, output_text := rd.text, output_message := rd.message,
            function := some BoundFunction.plainRef, function_async := Option.none,
            function_name := some fci.name, function_args := some fci.arguments,
            function_arguments := some fci.arguments }
      | FuncRef.asyncCallable =>
        Except.ok
          { output := result, output_text := rd.text, output_message := rd.message,
            function := Option.none, function_async := some BoundFunction.plainRef,
            function_name := some fci.name, function_args := some fci.arguments,
            function_arguments := some fci.arguments }
      | FuncRef.notCallable => Except.error PyErr.invalidFunctionType
    | _ =>
      Except.ok { output := result, output_text := rd.text, output_message := rd.message }

/-- The value an invocation returns: either a plain (parsed or raw) value or a
packaged function-call result. -/
inductive InvocationResult where
  | plain (v : PyVal)
  | withFunctionCall (o : OutputWithFunctionCall)

/-- Observable collaborator calls made during one invocation; retryCall
records the keyword arguments of the recovery completion. -/
inductive Event where
  | chainCall
  | retryEntered
  | retryCall (originalPrompt original formatInstructions : String)
deriving DecidableEq

def isRetryCall : Event → Bool
  | Event.retryCall _ _ _ => true
  | _ => false

def countRetryCalls (evs : List Event) : Nat := (evs.filter isRetryCall).length

/-- The body of the try block (source lines 306-310 / 345-348): execute the
chain, extract the designated output field, and post-process the results. -/
def runTryPhase (collab : Collab) (cs : ChainSpec) (ca : CallArgs) :
    Except PyErr (PyVal × ResultData) :=
  match collab.chainExec cs ca with
  | Except.error e => Except.error e
  | Except.ok rd => processResults collab.template.outputParser rd rd.output

/-- The retry branch (get_retry_parse_call_args, lines 265-281, followed by
the predict-and-parse in the except handlers): the original prompt text is
included only when the failure signal needs it, missing format instructions
raise before the recovery completion is invoked, and the recovery output is
parsed by the same output parser with a second failure propagating. -/
def runRetry (collab : Collab) (ca : CallArgs) (original : String) (needsPrompt : Bool) :
    (Except PyErr PyVal) × List Event :=
  let originalPrompt := if needsPrompt then collab.formatPrompt ca else ""
  match collab.template.outputParser with
  | Option.none => (Except.error (PyErr.attributeError "get_format_instructions"), [])
  | some p =>
    match p.format_instructions with
    | Option.none => (Except.error PyErr.formatInstructionsError, [])
    | some fi =>
      if fi == "" then (Except.error PyErr.formatInstructionsError, [])
      else
        match collab.retryExec originalPrompt original fi with
        | Except.error e => (Except.error e, [Event.retryCall originalPrompt original fi])
        | Except.ok r =>
          match p.parse r with
          | Except.error e => (Except.error e, [Event.retryCall originalPrompt original fi])
          | Except.ok v => (Except.ok v, [Event.retryCall originalPrompt original fi])

/-- Everything the wrapper does after prepare_call_args succeeded: the try
block, the except handler with its retry gate, and the function-call
packaging on the success path (source lines 305-328 / 343-366). -/
def wrapperTail (cfg : Config) (collab : Collab) (kwargs : Kw) (cs : ChainSpec) (ca : CallArgs) :
    (Except PyErr InvocationResult) × List Event :=
  match runTryPhase collab cs ca with
  | Except.ok res =>
    if res.2.function_call_info.isSome then
      match generateOutputWithFunctionCall res.1 res.2 ((getVal kwargs "callbacks").getD PyVal.none) with
      | Except.ok o => (Except.ok (InvocationResult.withFunctionCall o), [Event.chainCall])
      | Except.error e => (Except.error e, [Event.chainCall])
    else (Except.ok (InvocationResult.plain res.1), [Event.chainCall])
  | Except.error e =>
    match e with
    | PyErr.parseError info =>
      if cfg.retryOnParseError then
        match info with
        | some ob =>
          let rr := runRetry collab ca ob.1 ob.2
          (rr.1.map InvocationResult.plain, Event.chainCall :: Event.retryEntered :: rr.2)
        | Option.none => (Except.error (PyErr.parseError info), [Event.chainCall])
      else (Except.error (PyErr.parseError info), [Event.chainCall])
    | _ => (Except.error e, [Event.chainCall])

/-- The synchronous wrapper (source lines 299-333), returning the invocation
outcome together with the trace of collaborator calls. Only an
OutputParserException is caught; the retry branch is taken exactly when retry
is enabled and the exception carries the original text, and every other
exception is re-raised unmodified. -/
def wrapper (cfg : Config) (collab : Collab) (args : List PyVal) (kwargs : Kw) :
    (Except PyErr InvocationResult) × List Event :=
  match prepareCallArgs cfg collab args kwargs with
  | Except.error e => (Except.error e, [])
  | Except.ok prepared => wrapperTail cfg collab kwargs prepared.1 prepared.2

/-- Everything the async wrapper does after prepare_call_args succeeded
(source lines 343-366): textually the same control flow as the synchronous
tail, with the chain execution and recovery completion awaited; the awaited
stubs deliver the same collaborator responses. -/
def asyncWrapperTail (cfg : Config) (collab : Collab) (kwargs : Kw) (cs : ChainSpec) (ca : CallArgs) :
    (Except PyErr InvocationResult) × List Event :=
  match runTryPhase collab cs ca with
  | Except.ok res =>
    if res.2.function_call_info.isSome then
      match generateOutputWithFunctionCall res.1 res.2 ((getVal kwargs "callbacks").getD PyVal.none) with
      | Except.ok o => (Except.ok (InvocationResult.withFunctionCall o), [Event.chainCall])
      | Except.error e => (Except.error e, [Event.chainCall])
    else (Except.ok (InvocationResult.plain res.1), [Event.chainCall])
  | Except.error e =>
    match e with
    | PyErr.parseError info =>
      if cfg.retryOnParseError then
        match info with
        | some ob =>
          let rr := runRetry collab ca ob.1 ob.2
          (rr.1.map InvocationResult.plain, Event.chainCall :: Event.retryEntered :: rr.2)
        | Option.none => (Except.error (PyErr.parseError info), [Event.chainCall])
      else (Except.error (PyErr.parseError info), [Event.chainCall])
    | _ => (Except.error e, [Event.chainCall])

/-- The asynchronous wrapper (source lines 336-367). -/
def asyncWrapper (cfg : Config) (collab : Collab) (args : List PyVal) (kwargs : Kw) :
    (Except PyErr InvocationResult) × List Event :=
  match prepareCallArgs cfg collab args kwargs with
  | Except.error e => (Except.error e, [])
  | Except.ok prepared => asyncWrapperTail cfg collab kwargs prepared.1 prepared.2

/-- An OutputParserException carrying the original unparsed text. -/
def isParseErrorWithOriginal : PyErr → Bool
  | PyErr.parseError (some _) => true
  | _ => false

/-- When prepare_call_args succeeds, the wrapper is its tail on the prepared
chain and call arguments. -/
theorem wrapper_eq_tail (cfg : Config) (collab : Collab) (args : List PyVal) (kwargs : Kw)
    (cs : ChainSpec) (ca : CallArgs)
    (hprep : prepareCallArgs cfg collab args kwargs = Except.ok (cs, ca)) :
    wrapper cfg collab args kwargs = wrapperTail cfg collab kwargs cs ca := by
  unfold wrapper
  rw [hprep]

/-- When prepare_call_args fails, the wrapper propagates the error with an
empty collaborator-call trace. -/
theorem wrapper_eq_prep_error (cfg : Config) (collab : Collab) (args : List PyVal) (kwargs : Kw)
    (e : PyErr) (hprep : prepareCallArgs cfg collab args kwargs = Except.error e) :
    wrapper cfg collab args kwargs = (Except.error e, []) := by
  unfold wrapper
  rw [hprep]

/-! Shared concrete fixtures used by witnesses and counterexamples. -/

/-- A benign template requiring one input and no parser, with a chain stub
returning a fixed text. -/
def collabPlain : Collab := {
  template := { input_variables := ["topic"], default_values := [], outputParser := Option.none },
  streamingActive := false,
  chainExec := fun _ _ => Except.ok
    { output := PyVal.str "Cats are great.", text := PyVal.str "Cats are great.",
      message := PyVal.foreign "m", function_call_info := Option.none, function := Option.none },
  formatPrompt := fun _ => "P",
  retryExec := fun _ _ _ => Except.ok (PyVal.str "Yes") }

/-- Default decoration-time configuration: capture_stream resolved to False,
no fixed llm, no stop tokens, default format-instructions key, retry on. -/
def cfgDefault : Config := {
  captureStreamSetting := PyVal.bool false, fixedLLM := false, stopTokens := [],
  formatInstructionsKey := "FORMAT_INSTRUCTIONS", retryOnParseError := true }

/-- C1 --- claim: a parser-raised parse error carrying the original unparsed
text enters the retry path exactly when retry is enabled by configuration;
every other raised error (a parse error without original text, or any parse
error with retry disabled) propagates unmodified to the caller without the
recovery path being invoked. -/
theorem spec_c1_retry_gating (cfg : Config) (collab : Collab) (args : List PyVal) (kwargs : Kw)
    (cs : ChainSpec) (ca : CallArgs) (e : PyErr)
    (hprep : prepareCallArgs cfg collab args kwargs = Except.ok (cs, ca))
    (htry : runTryPhase collab cs ca = Except.error e) :
    ((Event.retryEntered ∈ (wrapper cfg collab args kwargs).2) ↔
      (cfg.retryOnParseError = true ∧ isParseErrorWithOriginal e = true))
    ∧ (¬(cfg.retryOnParseError = true ∧ isParseErrorWithOriginal e = true) →
        wrapper cfg collab args kwargs = (Except.error e, [Event.chainCall])) := by
  rw [wrapper_eq_tail cfg collab args kwargs cs ca hprep]
  unfold wrapperTail
  rw [htry]
  cases e with
  | parseError info =>
    cases info with
    | some ob =>
      by_cases hr : cfg.retryOnParseError = true <;> simp [hr, isParseErrorWithOriginal]
    | none =>
      by_cases hr : cfg.retryOnParseError = true <;> simp [hr, isParseErrorWithOriginal]
  | valueError => simp [isParseErrorWithOriginal]
  | positionalArgsError => simp [isParseErrorWithOriginal]
  | unexpectedInput keys valid => simp [isParseErrorWithOriginal]
  | missingInput keys => simp [isParseErrorWithOriginal]
  | formatInstructionsError => simp [isParseErrorWithOriginal]
  | invalidFunctionType => simp [isParseErrorWithOriginal]
  | keyError k => simp [isParseErrorWithOriginal]
  | attributeError a => simp [isParseErrorWithOriginal]
  | runtimeError => simp [isParseErrorWithOriginal]
  | externalError tag => simp [isParseErrorWithOriginal]

/-- A parser whose parse always raises a plain OutputParserException without
original text. -/
def parserPlainFail : OutputParser := {
  isPydanticFnParser := false,
  parse := fun _ => Except.error (PyErr.parseError Option.none),
  format_instructions := some "fi" }

/-- Fixture: template with no inputs whose parser raises a plain parse error. -/
def collabPlainFail : Collab := {
  template := { input_variables := [], default_values := [], outputParser := some parserPlainFail },
  streamingActive := false,
  chainExec := fun _ _ => Except.ok
    { output := PyVal.str "x", text := PyVal.str "x", message := PyVal.foreign "m",
      function_call_info := Option.none, function := Option.none },
  formatPrompt := fun _ => "P",
  retryExec := fun _ _ _ => Except.ok (PyVal.str "Yes") }

def csPlainStub : ChainSpec :=
  { kind := ChainKind.plainChain, captureStream := PyVal.bool false, memory := PyVal.none }

def caEmptyStub : CallArgs := { inputs := [], callbacks := PyVal.list [] }

/-- C1 witness: with retry enabled, a parse error without original text is not
retried and propagates unmodified. -/
theorem spec_c1_retry_gating_witness :
    (prepareCallArgs cfgDefault collabPlainFail [] [] = Except.ok (csPlainStub, caEmptyStub))
    ∧ (runTryPhase collabPlainFail csPlainStub caEmptyStub
        = Except.error (PyErr.parseError Option.none))
    ∧ (((Event.retryEntered ∈ (wrapper cfgDefault collabPlainFail [] []).2) ↔
          (cfgDefault.retryOnParseError = true
            ∧ isParseErrorWithOriginal (PyErr.parseError Option.none) = true))
        ∧ (¬(cfgDefault.retryOnParseError = true
              ∧ isParseErrorWithOriginal (PyErr.parseError Option.none) = true) →
            wrapper cfgDefault collabPlainFail [] []
              = (Except.error (PyErr.parseError Option.none), [Event.chainCall]))) :=
  ⟨rfl, rfl,
    spec_c1_retry_gating cfgDefault collabPlainFail [] [] csPlainStub caEmptyStub
      (PyErr.parseError Option.none) rfl rfl⟩

/-- capture_stream stage outcome when the kwarg is present and the
decoration-time value is not a bool: ValueError. -/
theorem resolveCaptureStream_err (s : PyVal) (act : Bool) (kwargs : Kw)
    (hk : hasKey kwargs "capture_stream" = true) (hb : s.isBool = false) :
    resolveCaptureStream s act kwargs = Except.error PyErr.valueError := by
  unfold resolveCaptureStream
  simp [hk, hb]

/-- capture_stream stage outcome when the kwarg is present and the
decoration-time value is a bool: the supplied value is adopted (unvalidated)
and the key is deleted. -/
theorem resolveCaptureStream_ok_present (s : PyVal) (act : Bool) (kwargs : Kw)
    (hk : hasKey kwargs "capture_stream" = true) (hb : s.isBool = true) :
    resolveCaptureStream s act kwargs =
      Except.ok (streamDowngrade act ((getVal kwargs "capture_stream").getD PyVal.none),
        delKey kwargs "capture_stream") := by
  unfold resolveCaptureStream
  simp [hk, hb]

/-- capture_stream stage outcome when the kwarg is absent. -/
theorem resolveCaptureStream_ok_absent (s : PyVal) (act : Bool) (kwargs : Kw)
    (hk : hasKey kwargs "capture_stream" = false) :
    resolveCaptureStream s act kwargs = Except.ok (streamDowngrade act s, kwargs) := by
  unfold resolveCaptureStream
  simp [hk]

/-- A capture_stream ValueError aborts prepare_call_args. -/
theorem prepareCallArgs_captureStream_error (cfg : Config) (collab : Collab)
    (args : List PyVal) (kwargs : Kw)
    (h : resolveCaptureStream cfg.captureStreamSetting collab.streamingActive kwargs
        = Except.error PyErr.valueError) :
    prepareCallArgs cfg collab args kwargs = Except.error PyErr.valueError := by
  unfold prepareCallArgs
  rw [h]

/-- The positional-arguments error aborts prepare_call_args right after the
capture_stream stage. -/
theorem prepareCallArgs_positional_error (cfg : Config) (collab : Collab)
    (args : List PyVal) (kwargs : Kw) (pr : PyVal × Kw)
    (h1 : resolveCaptureStream cfg.captureStreamSetting collab.streamingActive kwargs
        = Except.ok pr)
    (h2 : resolveInputSource args = Except.error PyErr.positionalArgsError) :
    prepareCallArgs cfg collab args kwargs = Except.error PyErr.positionalArgsError := by
  unfold prepareCallArgs
  rw [h1]
  simp only [h2]

/-- Decoration-time configuration whose resolved capture_stream value is None
(the decorator's own default when neither the argument nor a prompt type sets
it). -/
def cfgCaptureNone : Config := { cfgDefault with captureStreamSetting := PyVal.none }

/-- C3 --- the code (source line 139) checks isinstance on the stale
decoration-time capture_stream value instead of the supplied keyword value,
contradicting its own error message: a non-boolean supplied value is accepted
whenever the decoration-time value happens to be a bool, and a boolean
supplied value is rejected whenever the decoration-time value is None (the
decorator default). -/
theorem spec_c3_capture_stream_validates_wrong_value :
    (∃ r, prepareCallArgs cfgDefault collabPlain []
        [("capture_stream", PyVal.str "yes"), ("topic", PyVal.str "c")] = Except.ok r)
    ∧ prepareCallArgs cfgCaptureNone collabPlain []
        [("capture_stream", PyVal.bool true), ("topic", PyVal.str "c")]
      = Except.error PyErr.valueError :=
  ⟨⟨_, rfl⟩, rfl⟩

/-- C8 --- claim: for every descriptor, argument set and fixed set of
collaborator responses, the synchronous and asynchronous wrappers return
identical results (the same parsed value, and for function calls the same
packaged fields) on both the success path and the retry path. -/
theorem spec_c8_sync_async_equivalent (cfg : Config) (collab : Collab)
    (args : List PyVal) (kwargs : Kw) :
    asyncWrapper cfg collab args kwargs = wrapper cfg collab args kwargs := rfl

/-- C9 --- claim: two or more positional arguments always fail with an
InvalidArguments usage error, independently of the arguments' content, before
any chain is created or invoked (the collaborator trace is empty). The error
is the positional-arguments exception, except that the source can raise the
reserved-kwarg ValueError (also of the InvalidArguments kind in the spec's
taxonomy) even earlier. -/
theorem spec_c9_two_positional_args (cfg : Config) (collab : Collab) (kwargs : Kw)
    (a b : PyVal) (rest : List PyVal) :
    ((wrapper cfg collab (a :: b :: rest) kwargs).2 = []
      ∧ ∃ e, (wrapper cfg collab (a :: b :: rest) kwargs).1 = Except.error e
          ∧ (e = PyErr.positionalArgsError ∨ e = PyErr.valueError))
    ∧ ((hasKey kwargs "capture_stream" = false ∨ cfg.captureStreamSetting.isBool = true) →
        wrapper cfg collab (a :: b :: rest) kwargs
          = (Except.error PyErr.positionalArgsError, [])) := by
  have hsrc : resolveInputSource (a :: b :: rest) = Except.error PyErr.positionalArgsError := rfl
  by_cases hk : hasKey kwargs "capture_stream" = true
  · by_cases hb : cfg.captureStreamSetting.isBool = true
    · have hprep : prepareCallArgs cfg collab (a :: b :: rest) kwargs
          = Except.error PyErr.positionalArgsError :=
        prepareCallArgs_positional_error cfg collab (a :: b :: rest) kwargs _
          (resolveCaptureStream_ok_present _ _ _ hk hb) hsrc
      have hw := wrapper_eq_prep_error cfg collab (a :: b :: rest) kwargs _ hprep
      rw [hw]
      exact ⟨⟨rfl, ⟨PyErr.positionalArgsError, rfl, Or.inl rfl⟩⟩, fun _ => rfl⟩
    · have hprep : prepareCallArgs cfg collab (a :: b :: rest) kwargs
          = Except.error PyErr.valueError :=
        prepareCallArgs_captureStream_error cfg collab (a :: b :: rest) kwargs
          (resolveCaptureStream_err _ _ _ hk (by simpa using hb))
      have hw := wrapper_eq_prep_error cfg collab (a :: b :: rest) kwargs _ hprep
      rw [hw]
      refine ⟨⟨rfl, ⟨PyErr.valueError, rfl, Or.inr rfl⟩⟩, ?_⟩
      intro h
      rcases h with h | h
      · exact absurd hk (by simp [h])
      · exact absurd h hb
  · have hprep : prepareCallArgs cfg collab (a :: b :: rest) kwargs
        = Except.error PyErr.positionalArgsError :=
      prepareCallArgs_positional_error cfg collab (a :: b :: rest) kwargs _
        (resolveCaptureStream_ok_absent _ _ _ (by simpa using hk)) hsrc
    have hw := wrapper_eq_prep_error cfg collab (a :: b :: rest) kwargs _ hprep
    rw [hw]
    exact ⟨⟨rfl, ⟨PyErr.positionalArgsError, rfl, Or.inl rfl⟩⟩, fun _ => rfl⟩

/-- C9 witness: two concrete positional integers fail with the positional
arguments error before any chain call. -/
theorem spec_c9_two_positional_args_witness :
    (((wrapper cfgDefault collabPlain [PyVal.int 1, PyVal.int 2] []).2 = []
      ∧ ∃ e, (wrapper cfgDefault collabPlain [PyVal.int 1, PyVal.int 2] []).1 = Except.error e
          ∧ (e = PyErr.positionalArgsError ∨ e = PyErr.valueError))
    ∧ ((hasKey ([] : Kw) "capture_stream" = false ∨ cfgDefault.captureStreamSetting.isBool = true) →
        wrapper cfgDefault collabPlain [PyVal.int 1, PyVal.int 2] []
          = (Except.error PyErr.positionalArgsError, []))) :=
  spec_c9_two_positional_args cfgDefault collabPlain [] (PyVal.int 1) (PyVal.int 2) []

/-- C2 --- claim: on a parse error carrying original text with
needs_original_prompt false and retry enabled, the recovery prompt's
original-prompt slot is the empty string, the recovery completion call happens
exactly once, a successful recovery parse is returned as the final result; if
the parser supplies no format instructions the retry fails with the
configuration error (a distinct error from a parse failure), and a second
parse failure (or any error of the recovery call) propagates uncaught. -/
theorem spec_c2_retry_without_original_prompt (cfg : Config) (collab : Collab)
    (args : List PyVal) (kwargs : Kw) (cs : ChainSpec) (ca : CallArgs) (o : String)
    (p : OutputParser)
    (hprep : prepareCallArgs cfg collab args kwargs = Except.ok (cs, ca))
    (hretry : cfg.retryOnParseError = true)
    (htry : runTryPhase collab cs ca = Except.error (PyErr.parseError (some (o, false))))
    (hp : collab.template.outputParser = some p) :
    ((p.format_instructions = Option.none ∨ p.format_instructions = some "") →
      wrapper cfg collab args kwargs
        = (Except.error PyErr.formatInstructionsError, [Event.chainCall, Event.retryEntered]))
    ∧ (∀ fi : String, p.format_instructions = some fi → fi ≠ "" →
        (countRetryCalls (wrapper cfg collab args kwargs).2 = 1)
        ∧ (Event.retryCall "" o fi ∈ (wrapper cfg collab args kwargs).2)
        ∧ (∀ r v, collab.retryExec "" o fi = Except.ok r → p.parse r = Except.ok v →
            (wrapper cfg collab args kwargs).1 = Except.ok (InvocationResult.plain v))
        ∧ (∀ r e2, collab.retryExec "" o fi = Except.ok r → p.parse r = Except.error e2 →
            (wrapper cfg collab args kwargs).1 = Except.error e2)
        ∧ (∀ e2, collab.retryExec "" o fi = Except.error e2 →
            (wrapper cfg collab args kwargs).1 = Except.error e2)) := by
  rw [wrapper_eq_tail cfg collab args kwargs cs ca hprep]
  unfold wrapperTail
  rw [htry]
  simp only [hretry, if_true]
  constructor
  · intro hfi
    rcases hfi with hfi | hfi <;>
      simp [runRetry, hp, hfi, Except.map]
  · intro fi hfi hne
    have hbe : (fi == "") = false := by
      simp [hne]
    refine ⟨?_, ?_, ?_, ?_, ?_⟩
    · cases hre : collab.retryExec "" o fi with
      | error e2 => simp [runRetry, hp, hfi, hbe, hre, countRetryCalls, isRetryCall]
      | ok r =>
        cases hpr : p.parse r with
        | error e2 => simp [runRetry, hp, hfi, hbe, hre, hpr, countRetryCalls, isRetryCall]
        | ok v => simp [runRetry, hp, hfi, hbe, hre, hpr, countRetryCalls, isRetryCall]
    · cases hre : collab.retryExec "" o fi with
      | error e2 => simp [runRetry, hp, hfi, hbe, hre, Except.map]
      | ok r =>
        cases hpr : p.parse r with
        | error e2 => simp [runRetry, hp, hfi, hbe, hre, hpr, Except.map]
        | ok v => simp [runRetry, hp, hfi, hbe, hre, hpr, Except.map]
    · intro r v hre hpr
      simp [runRetry, hp, hfi, hbe, hre, hpr, Except.map]
    · intro r e2 hre hpr
      simp [runRetry, hp, hfi, hbe, hre, hpr, Except.map]
    · intro e2 hre
      simp [runRetry, hp, hfi, hbe, hre, Except.map]

/-- A parser that fails on the first chain output with an error carrying the
original text and needs_original_prompt false, and succeeds on the recovery
output. -/
def parserRetryNoPrompt : OutputParser := {
  isPydanticFnParser := false,
  parse := fun v =>
    match v with
    | PyVal.str "good" => Except.ok (PyVal.bool true)
    | _ => Except.error (PyErr.parseError (some ("bad", false))),
  format_instructions := some "fi" }

/-- Fixture for the retry path: the chain returns unparseable text and the
recovery completion returns text the parser accepts. -/
def collabRetryNoPrompt : Collab := {
  template := { input_variables := [], default_values := [],
                outputParser := some parserRetryNoPrompt },
  streamingActive := false,
  chainExec := fun _ _ => Except.ok
    { output := PyVal.str "bad", text := PyVal.str "bad", message := PyVal.foreign "m",
      function_call_info := Option.none, function := Option.none },
  formatPrompt := fun _ => "P",
  retryExec := fun _ _ _ => Except.ok (PyVal.str "good") }

/-- C2 witness: at the concrete fixture the hypotheses hold and the retry
properties follow by applying the theorem. -/
theorem spec_c2_retry_without_original_prompt_witness :
    (prepareCallArgs cfgDefault collabRetryNoPrompt [] [] = Except.ok (csPlainStub, caEmptyStub))
    ∧ (cfgDefault.retryOnParseError = true)
    ∧ (runTryPhase collabRetryNoPrompt csPlainStub caEmptyStub
        = Except.error (PyErr.parseError (some ("bad", false))))
    ∧ (collabRetryNoPrompt.template.outputParser = some parserRetryNoPrompt)
    ∧ (((parserRetryNoPrompt.format_instructions = Option.none
          ∨ parserRetryNoPrompt.format_instructions = some "") →
        wrapper cfgDefault collabRetryNoPrompt [] []
          = (Except.error PyErr.formatInstructionsError, [Event.chainCall, Event.retryEntered]))
      ∧ (∀ fi : String, parserRetryNoPrompt.format_instructions = some fi → fi ≠ "" →
          (countRetryCalls (wrapper cfgDefault collabRetryNoPrompt [] []).2 = 1)
          ∧ (Event.retryCall "" "bad" fi ∈ (wrapper cfgDefault collabRetryNoPrompt [] []).2)
          ∧ (∀ r v, collabRetryNoPrompt.retryExec "" "bad" fi = Except.ok r →
              parserRetryNoPrompt.parse r = Except.ok v →
              (wrapper cfgDefault collabRetryNoPrompt [] []).1
                = Except.ok (InvocationResult.plain v))
          ∧ (∀ r e2, collabRetryNoPrompt.retryExec "" "bad" fi = Except.ok r →
              parserRetryNoPrompt.parse r = Except.error e2 →
              (wrapper cfgDefault collabRetryNoPrompt [] []).1 = Except.error e2)
          ∧ (∀ e2, collabRetryNoPrompt.retryExec "" "bad" fi = Except.error e2 →
              (wrapper cfgDefault collabRetryNoPrompt [] []).1 = Except.error e2))) :=
  ⟨rfl, rfl, rfl, rfl,
    spec_c2_retry_without_original_prompt cfgDefault collabRetryNoPrompt [] []
      csPlainStub caEmptyStub "bad" parserRetryNoPrompt rfl rfl rfl rfl⟩

/-- C10 --- claim: with a parser configured and not of the native
function-calling kind, a falsy extracted output (for example the empty
string) is returned unchanged without invoking the parser (the outcome is the
same for every parser of that kind), and the parser is applied exactly to
truthy output values. -/
theorem spec_c10_falsy_output_skips_parsing (cfg : Config) (collab : Collab)
    (args : List PyVal) (kwargs : Kw) (cs : ChainSpec) (ca : CallArgs) (rd : ResultData)
    (p : OutputParser)
    (hprep : prepareCallArgs cfg collab args kwargs = Except.ok (cs, ca))
    (hp : collab.template.outputParser = some p)
    (hnp : p.isPydanticFnParser = false)
    (hchain : collab.chainExec cs ca = Except.ok rd)
    (hfalsy : rd.output.truthy = false)
    (hnofci : rd.function_call_info = Option.none) :
    wrapper cfg collab args kwargs
      = (Except.ok (InvocationResult.plain rd.output), [Event.chainCall])
    ∧ (∀ q : OutputParser, q.isPydanticFnParser = false →
        processResults (some q) rd rd.output = Except.ok (rd.output, rd))
    ∧ (∀ rd2 : ResultData, rd2.output.truthy = true →
        (∀ v, p.parse rd2.output = Except.ok v →
          processResults (some p) rd2 rd2.output = Except.ok (v, rd2))
        ∧ (∀ e, p.parse rd2.output = Except.error e →
          processResults (some p) rd2 rd2.output = Except.error e)) := by
  refine ⟨?_, ?_, ?_⟩
  · rw [wrapper_eq_tail cfg collab args kwargs cs ca hprep]
    unfold wrapperTail
    have htp : runTryPhase collab cs ca = Except.ok (rd.output, rd) := by
      unfold runTryPhase
      rw [hchain]
      simp [processResults, hp, hnp, hfalsy]
    rw [htp]
    simp [hnofci]
  · intro q hq
    simp [processResults, hq, hfalsy]
  · intro rd2 htruthy
    constructor
    · intro v hpr
      simp [processResults, hnp, htruthy, hpr]
    · intro e hpr
      simp [processResults, hnp, htruthy, hpr]

/-- A parser that maps every value to a fixed string; used to show it is not
consulted on falsy output. -/
def parserConstOk : OutputParser := {
  isPydanticFnParser := false,
  parse := fun _ => Except.ok (PyVal.str "parsed"),
  format_instructions := some "fi" }

/-- Fixture whose chain returns an empty (falsy) output text. -/
def collabFalsyOutput : Collab := {
  template := { input_variables := [], default_values := [], outputParser := some parserConstOk },
  streamingActive := false,
  chainExec := fun _ _ => Except.ok
    { output := PyVal.str "", text := PyVal.str "", message := PyVal.foreign "m",
      function_call_info := Option.none, function := Option.none },
  formatPrompt := fun _ => "P",
  retryExec := fun _ _ _ => Except.ok (PyVal.str "Yes") }

/-- The result_data returned by the falsy-output fixture. -/
def rdFalsyOutput : ResultData :=
  { output := PyVal.str "", text := PyVal.str "", message := PyVal.foreign "m",
    function_call_info := Option.none, function := Option.none }

/-- C10 witness: the empty chain output is returned raw, unparsed. -/
theorem spec_c10_falsy_output_skips_parsing_witness :
    (prepareCallArgs cfgDefault collabFalsyOutput [] [] = Except.ok (csPlainStub, caEmptyStub))
    ∧ (collabFalsyOutput.template.outputParser = some parserConstOk)
    ∧ (parserConstOk.isPydanticFnParser = false)
    ∧ (collabFalsyOutput.chainExec csPlainStub caEmptyStub = Except.ok rdFalsyOutput)
    ∧ (rdFalsyOutput.output.truthy = false)
    ∧ (rdFalsyOutput.function_call_info = Option.none)
    ∧ (wrapper cfgDefault collabFalsyOutput [] []
        = (Except.ok (InvocationResult.plain rdFalsyOutput.output), [Event.chainCall])
      ∧ (∀ q : OutputParser, q.isPydanticFnParser = false →
          processResults (some q) rdFalsyOutput rdFalsyOutput.output
            = Except.ok (rdFalsyOutput.output, rdFalsyOutput))
      ∧ (∀ rd2 : ResultData, rd2.output.truthy = true →
          (∀ v, parserConstOk.parse rd2.output = Except.ok v →
            processResults (some parserConstOk) rd2 rd2.output = Except.ok (v, rd2))
          ∧ (∀ e, parserConstOk.parse rd2.output = Except.error e →
            processResults (some parserConstOk) rd2 rd2.output = Except.error e))) :=
  ⟨rfl, rfl, rfl, rfl, rfl, rfl,
    spec_c10_falsy_output_skips_parsing cfgDefault collabFalsyOutput [] []
      csPlainStub caEmptyStub rdFalsyOutput parserConstOk rfl rfl rfl rfl rfl rfl⟩

/-- A native function-calling (pydantic) parser stub. -/
def parserPydantic : OutputParser := {
  isPydanticFnParser := true,
  parse := fun _ => Except.ok (PyVal.str "parsed"),
  format_instructions := some "fi" }

/-- A sample function-call payload. -/
def fciSample : FunctionCallInfo := { name := "f", arguments := PyVal.dict [("a", PyVal.int 1)] }

/-- Chain result carrying a function-call payload and a tool reference. -/
def rdFnCall : ResultData :=
  { output := PyVal.str "", text := PyVal.str "raw", message := PyVal.foreign "m",
    function_call_info := some (some fciSample), function := some FuncRef.tool }

/-- Fixture: pydantic-kind parser and a chain that signals a function call. -/
def collabPydantic : Collab := {
  template := { input_variables := [], default_values := [], outputParser := some parserPydantic },
  streamingActive := false,
  chainExec := fun _ _ => Except.ok rdFnCall,
  formatPrompt := fun _ => "P",
  retryExec := fun _ _ _ => Except.ok (PyVal.str "Yes") }

/-- C7 counterexample: with the native function-calling (pydantic) parser and
a chain that signals a function-call payload, the invocation returns a PLAIN
parsed value and no Function-Call Result at all --- process_results pops
function_call_info before the packaging check (source lines 288-290), so the
claim's "including the pydantic kind" clause fails on the code. -/
theorem spec_c7_pydantic_plain_counterexample :
    (wrapper cfgDefault collabPydantic [] []
      = (Except.ok (InvocationResult.plain (PyVal.str "parsed")), [Event.chainCall]))
    ∧ ¬ ∃ o, (wrapper cfgDefault collabPydantic [] []).1
        = Except.ok (InvocationResult.withFunctionCall o) := by
  constructor
  · rfl
  · intro h
    rcases h with ⟨o, ho⟩
    rw [show (wrapper cfgDefault collabPydantic [] []).1
        = Except.ok (InvocationResult.plain (PyVal.str "parsed")) from rfl] at ho
    simp at ho

/-- C7 (amended) --- when the chain signals a function-call payload that
survives process_results (every non-pydantic parser configuration), the
returned value is a Function-Call Result bundling the raw text, the raw
message, the function name and the argument mapping, with output the
(possibly parsed) extracted result; when the parser is of the pydantic kind,
the parsed arguments are returned as a plain value and no Function-Call
Result is produced. -/
theorem spec_c7_function_call_packaging (cfg : Config) (collab : Collab)
    (args : List PyVal) (kwargs : Kw) (cs : ChainSpec) (ca : CallArgs)
    (hprep : prepareCallArgs cfg collab args kwargs = Except.ok (cs, ca)) :
    (∀ res rd fci, runTryPhase collab cs ca = Except.ok (res, rd) →
      rd.function_call_info = some (some fci) →
      (rd.function = some FuncRef.tool →
        wrapper cfg collab args kwargs
          = (Except.ok (InvocationResult.withFunctionCall
              { output := res, output_text := rd.text, output_message := rd.message,
                function := some (BoundFunction.toolForward (toolInputOf fci.arguments)
                  ((getVal kwargs "callbacks").getD PyVal.none)),
                function_async := some (BoundFunction.toolForward (toolInputOf fci.arguments)
                  ((getVal kwargs "callbacks").getD PyVal.none)),
                function_name := some fci.name,
                function_args := some fci.arguments,
                function_arguments := some (toolInputOf fci.arguments) }), [Event.chainCall]))
      ∧ (rd.function = some FuncRef.syncCallable →
        wrapper cfg collab args kwargs
          = (Except.ok (InvocationResult.withFunctionCall
              { output := res, output_text := rd.text, output_message := rd.message,
                function := some BoundFunction.plainRef, function_async := Option.none,
                function_name := some fci.name, function_args := some fci.arguments,
                function_arguments := some fci.arguments }), [Event.chainCall]))
      ∧ (rd.function = some FuncRef.asyncCallable →
        wrapper cfg collab args kwargs
          = (Except.ok (InvocationResult.withFunctionCall
              { output := res, output_text := rd.text, output_message := rd.message,
                function := Option.none, function_async := some BoundFunction.plainRef,
                function_name := some fci.name, function_args := some fci.arguments,
                function_arguments := some fci.arguments }), [Event.chainCall]))
      ∧ (rd.function = some FuncRef.notCallable →
        wrapper cfg collab args kwargs
          = (Except.error PyErr.invalidFunctionType, [Event.chainCall])))
    ∧ (∀ p rd0 fci0 fr v, collab.template.outputParser = some p →
        p.isPydanticFnParser = true →
        collab.chainExec cs ca = Except.ok rd0 →
        rd0.function_call_info = some (some fci0) → rd0.function = some fr →
        p.parse fci0.arguments = Except.ok v →
        wrapper cfg collab args kwargs
          = (Except.ok (InvocationResult.plain v), [Event.chainCall])) := by
  rw [wrapper_eq_tail cfg collab args kwargs cs ca hprep]
  constructor
  · intro res rd fci htry hfci
    refine ⟨?_, ?_, ?_, ?_⟩ <;> intro hf <;>
      (unfold wrapperTail
       rw [htry]
       simp [hfci, generateOutputWithFunctionCall, hf])
  · intro p rd0 fci0 fr v hp hpy hchain hfci0 hfr hparse
    have htp : runTryPhase collab cs ca
        = Except.ok (v, { rd0 with function_call_info := Option.none, function := Option.none }) := by
      unfold runTryPhase
      rw [hchain]
      simp [processResults, hp, hpy, hfci0, hfr, hparse]
    unfold wrapperTail
    rw [htp]
    simp

/-- Chain result with a function-call payload, a tool reference and a truthy
output, used with no configured parser. -/
def rdToolCall : ResultData :=
  { output := PyVal.str "out", text := PyVal.str "raw", message := PyVal.foreign "m",
    function_call_info := some (some fciSample), function := some FuncRef.tool }

/-- Fixture: no parser, chain signals a tool function call. -/
def collabToolCall : Collab := {
  template := { input_variables := [], default_values := [], outputParser := Option.none },
  streamingActive := false,
  chainExec := fun _ _ => Except.ok rdToolCall,
  formatPrompt := fun _ => "P",
  retryExec := fun _ _ _ => Except.ok (PyVal.str "Yes") }

/-- C7 witness: the amended packaging statement applied at the tool fixture. -/
theorem spec_c7_function_call_packaging_witness :
    (prepareCallArgs cfgDefault collabToolCall [] [] = Except.ok (csPlainStub, caEmptyStub))
    ∧ ((∀ res rd fci, runTryPhase collabToolCall csPlainStub caEmptyStub = Except.ok (res, rd) →
        rd.function_call_info = some (some fci) →
        (rd.function = some FuncRef.tool →
          wrapper cfgDefault collabToolCall [] []
            = (Except.ok (InvocationResult.withFunctionCall
                { output := res, output_text := rd.text, output_message := rd.message,
                  function := some (BoundFunction.toolForward (toolInputOf fci.arguments)
                    ((getVal ([] : Kw) "callbacks").getD PyVal.none)),
                  function_async := some (BoundFunction.toolForward (toolInputOf fci.arguments)
                    ((getVal ([] : Kw) "callbacks").getD PyVal.none)),
                  function_name := some fci.name,
                  function_args := some fci.arguments,
                  function_arguments := some (toolInputOf fci.arguments) }), [Event.chainCall]))
        ∧ (rd.function = some FuncRef.syncCallable →
          wrapper cfgDefault collabToolCall [] []
            = (Except.ok (InvocationResult.withFunctionCall
                { output := res, output_text := rd.text, output_message := rd.message,
                  function := some BoundFunction.plainRef, function_async := Option.none,
                  function_name := some fci.name, function_args := some fci.arguments,
                  function_arguments := some fci.arguments }), [Event.chainCall]))
        ∧ (rd.function = some FuncRef.asyncCallable →
          wrapper cfgDefault collabToolCall [] []
            = (Except.ok (InvocationResult.withFunctionCall
                { output := res, output_text := rd.text, output_message := rd.message,
                  function := Option.none, function_async := some BoundFunction.plainRef,
                  function_name := some fci.name, function_args := some fci.arguments,
                  function_arguments := some fci.arguments }), [Event.chainCall]))
        ∧ (rd.function = some FuncRef.notCallable →
          wrapper cfgDefault collabToolCall [] []
            = (Except.error PyErr.invalidFunctionType, [Event.chainCall])))
      ∧ (∀ p rd0 fci0 fr v, collabToolCall.template.outputParser = some p →
          p.isPydanticFnParser = true →
          collabToolCall.chainExec csPlainStub caEmptyStub = Except.ok rd0 →
          rd0.function_call_info = some (some fci0) → rd0.function = some fr →
          p.parse fci0.arguments = Except.ok v →
          wrapper cfgDefault collabToolCall [] []
            = (Except.ok (InvocationResult.plain v), [Event.chainCall]))) :=
  ⟨rfl, spec_c7_function_call_packaging cfgDefault collabToolCall [] []
      csPlainStub caEmptyStub rfl⟩


/-! Dictionary lemmas used by the argument-assembly proofs. -/

@[simp] theorem hasKey_nil (k : String) : hasKey [] k = false := rfl

@[simp] theorem hasKey_cons (p : String × PyVal) (kw : Kw) (k : String) :
    hasKey (p :: kw) k = (p.1 == k || hasKey kw k) := by
  simp [hasKey]

@[simp] theorem getVal_nil (k : String) : getVal [] k = Option.none := rfl

@[simp] theorem getVal_cons (p : String × PyVal) (kw : Kw) (k : String) :
    getVal (p :: kw) k = if p.1 = k then some p.2 else getVal kw k := by
  by_cases h : p.1 = k <;> simp [getVal, List.find?_cons, h]

@[simp] theorem delKey_nil (k : String) : delKey [] k = [] := rfl

@[simp] theorem delKey_cons (p : String × PyVal) (kw : Kw) (k : String) :
    delKey (p :: kw) k = if p.1 = k then delKey kw k else p :: delKey kw k := by
  by_cases h : p.1 = k <;> simp [delKey, List.filter_cons, h]

theorem hasKey_append (a b : Kw) (k : String) :
    hasKey (a ++ b) k = (hasKey a k || hasKey b k) := by
  simp [hasKey, List.any_append]

theorem getVal_append (a b : Kw) (k : String) :
    getVal (a ++ b) k = (getVal a k).or (getVal b k) := by
  induction a with
  | nil => simp
  | cons p rest ih =>
    by_cases h : p.1 = k <;> simp [h, ih]

theorem hasKey_eq_isSome_getVal (kw : Kw) (k : String) :
    hasKey kw k = (getVal kw k).isSome := by
  induction kw with
  | nil => simp
  | cons p rest ih =>
    by_cases h : p.1 = k <;> simp [h, ih]

theorem hasKey_iff_mem (kw : Kw) (k : String) :
    hasKey kw k = true ↔ k ∈ kw.map Prod.fst := by
  induction kw with
  | nil => simp
  | cons p rest ih =>
    rw [hasKey_cons]
    simp only [List.map_cons, List.mem_cons]
    constructor
    · intro hk
      rcases Bool.or_eq_true_iff.mp hk with h1 | h2
      · exact Or.inl (beq_iff_eq.mp h1).symm
      · exact Or.inr (ih.mp h2)
    · rintro (he | hm)
      · simp [he.symm]
      · simp [ih.mpr hm]

theorem hasKey_delKey (kw : Kw) (k k2 : String) :
    hasKey (delKey kw k) k2 = (hasKey kw k2 && !(k2 == k)) := by
  induction kw with
  | nil => simp
  | cons p rest ih =>
    by_cases hpk : p.1 = k
    · rw [delKey_cons, if_pos hpk, ih, hasKey_cons]
      by_cases hk2 : k2 = k
      · subst hk2
        simp
      · have h1 : (p.1 == k2) = false := by
          rw [hpk]
          simpa using fun he => hk2 he.symm
        rw [h1]
        simp
    · rw [delKey_cons, if_neg hpk, hasKey_cons, ih, hasKey_cons]
      by_cases hp2 : p.1 = k2
      · have hk2 : (k2 == k) = false := by
          rw [← hp2]
          simpa using hpk
        have hb : (p.1 == k2) = true := by simpa using hp2
        rw [hb, hk2]
        simp
      · have hb : (p.1 == k2) = false := by simpa using hp2
        rw [hb]
        simp

theorem hasKey_delKey_self (kw : Kw) (k : String) : hasKey (delKey kw k) k = false := by
  simp [hasKey_delKey]

theorem hasKey_delKey_ne (kw : Kw) (k k2 : String) (h : k2 ≠ k) :
    hasKey (delKey kw k) k2 = hasKey kw k2 := by
  simp [hasKey_delKey, h]

theorem getVal_delKey_ne (kw : Kw) (k k2 : String) (h : k2 ≠ k) :
    getVal (delKey kw k) k2 = getVal kw k2 := by
  induction kw with
  | nil => simp
  | cons p rest ih =>
    by_cases hpk : p.1 = k
    · have hp2 : ¬ p.1 = k2 := by
        rw [hpk]
        exact fun he => h he.symm
      rw [delKey_cons, if_pos hpk, ih, getVal_cons, if_neg hp2]
    · rw [delKey_cons, if_neg hpk, getVal_cons, getVal_cons, ih]

theorem keys_map_replace (kw : Kw) (k : String) (v : PyVal) :
    (kw.map (fun p => if p.1 = k then (p.1, v) else p)).map Prod.fst = kw.map Prod.fst := by
  induction kw with
  | nil => rfl
  | cons p rest ih =>
    by_cases h : p.1 = k
    · simp only [List.map_cons, if_pos h, ih]
    · simp only [List.map_cons, if_neg h, ih]

theorem getVal_map_replace_self (kw : Kw) (k : String) (v : PyVal) (hk : hasKey kw k = true) :
    getVal (kw.map (fun p => if p.1 = k then (p.1, v) else p)) k = some v := by
  induction kw with
  | nil => simp at hk
  | cons p rest ih =>
    by_cases hp : p.1 = k
    · simp only [List.map_cons, if_pos hp, getVal_cons, if_pos hp]
    · have hrk : hasKey rest k = true := by
        rw [hasKey_cons] at hk
        have hb : (p.1 == k) = false := by simpa using hp
        rw [hb] at hk
        simpa using hk
      simp only [List.map_cons, if_neg hp, getVal_cons, if_neg hp, ih hrk]

theorem getVal_map_replace_ne (kw : Kw) (k k2 : String) (v : PyVal) (h : k2 ≠ k) :
    getVal (kw.map (fun p => if p.1 = k then (p.1, v) else p)) k2 = getVal kw k2 := by
  induction kw with
  | nil => simp
  | cons p rest ih =>
    by_cases hp : p.1 = k
    · have hp2 : ¬ p.1 = k2 := by
        rw [hp]
        exact fun he => h he.symm
      simp only [List.map_cons, if_pos hp, getVal_cons, if_neg hp2, ih]
    · simp only [List.map_cons, if_neg hp, getVal_cons, ih]

theorem hasKey_setKey (kw : Kw) (k k2 : String) (v : PyVal) :
    hasKey (setKey kw k v) k2 = (hasKey kw k2 || k == k2) := by
  unfold setKey
  by_cases hk : hasKey kw k
  · rw [if_pos hk, hasKey_eq_isSome_getVal]
    by_cases hkk : k = k2
    · subst hkk
      rw [getVal_map_replace_self kw k v hk]
      simp [hk]
    · rw [getVal_map_replace_ne kw k k2 v (fun he => hkk he.symm), ← hasKey_eq_isSome_getVal]
      simp [hkk]
  · rw [if_neg hk, hasKey_append]
    by_cases hkk : k = k2 <;> simp [hkk]

theorem getVal_setKey_self (kw : Kw) (k : String) (v : PyVal) :
    getVal (setKey kw k v) k = some v := by
  unfold setKey
  by_cases hk : hasKey kw k
  · rw [if_pos hk]
    exact getVal_map_replace_self kw k v hk
  · rw [if_neg hk, getVal_append]
    have hkf : hasKey kw k = false := by simpa using hk
    have hnone : getVal kw k = Option.none := by
      have hiso := hasKey_eq_isSome_getVal kw k
      rw [hkf] at hiso
      cases h2 : getVal kw k
      · rfl
      · rw [h2] at hiso
        simp at hiso
    simp [hnone]

theorem getVal_setKey_ne (kw : Kw) (k k2 : String) (v : PyVal) (h : k2 ≠ k) :
    getVal (setKey kw k v) k2 = getVal kw k2 := by
  unfold setKey
  by_cases hk : hasKey kw k
  · rw [if_pos hk]
    exact getVal_map_replace_ne kw k k2 v h
  · rw [if_neg hk, getVal_append]
    have hne : ¬ k = k2 := fun he => h he.symm
    have h1 : getVal [(k, v)] k2 = Option.none := by
      simp [hne]
    rw [h1]
    cases h2 : getVal kw k2 <;> simp

theorem getVal_filter_notHasKey (a b : Kw) (k : String) :
    getVal (b.filter (fun p => !hasKey a p.1)) k
      = if hasKey a k then Option.none else getVal b k := by
  induction b with
  | nil => simp
  | cons p rest ih =>
    by_cases hp : p.1 = k
    · by_cases hak : hasKey a k
      · have hkp : hasKey a p.1 = true := by rw [hp]; exact hak
        simp [List.filter_cons, hkp, hak, ih]
      · have hkp : hasKey a p.1 = false := by rw [hp]; simpa using hak
        simp [List.filter_cons, hkp, hak, hp]
    · by_cases haf : hasKey a p.1
      · simp [List.filter_cons, haf, ih, hp]
      · simp [List.filter_cons, haf, ih, hp]

theorem getVal_map_override (a b : Kw) (k : String) :
    getVal (a.map (fun p => (p.1, (getVal b p.1).getD p.2))) k
      = (getVal a k).map (fun v => (getVal b k).getD v) := by
  induction a with
  | nil => simp
  | cons p rest ih =>
    obtain ⟨pk, pv⟩ := p
    by_cases hp : pk = k
    · subst hp
      simp [ih]
    · simp [hp, ih]

theorem getVal_dictMerge (a b : Kw) (k : String) :
    getVal (dictMerge a b) k = (getVal b k).or (getVal a k) := by
  unfold dictMerge
  rw [getVal_append, getVal_map_override, getVal_filter_notHasKey]
  by_cases hak : hasKey a k
  · have hiso : (getVal a k).isSome = true := by
      rw [← hasKey_eq_isSome_getVal]
      exact hak
    cases hga : getVal a k
    · rw [hga] at hiso
      simp at hiso
    · cases hgb : getVal b k <;> simp [hak, hga, hgb]
  · have hiso : (getVal a k).isSome = false := by
      rw [← hasKey_eq_isSome_getVal]
      simpa using hak
    cases hga : getVal a k
    · cases hgb : getVal b k <;> simp [hak, hga, hgb]
    · rw [hga] at hiso
      simp at hiso

theorem hasKey_dictMerge (a b : Kw) (k : String) :
    hasKey (dictMerge a b) k = (hasKey a k || hasKey b k) := by
  rw [hasKey_eq_isSome_getVal, getVal_dictMerge,
    hasKey_eq_isSome_getVal a, hasKey_eq_isSome_getVal b]
  cases getVal a k <;> cases getVal b k <;> simp

/-! Stage-level lemmas about the argument-assembly pipeline. -/

theorem getVal_eq_none_of_hasKey_false (kw : Kw) (k : String) (h : hasKey kw k = false) :
    getVal kw k = Option.none := by
  have hiso := hasKey_eq_isSome_getVal kw k
  rw [h] at hiso
  cases h2 : getVal kw k
  · rfl
  · rw [h2] at hiso
    simp at hiso

theorem popKw_fst (kw : Kw) (k : String) (d : PyVal) :
    (popKw kw k d).1 = (getVal kw k).getD d := by
  unfold popKw
  by_cases hk : hasKey kw k
  · rw [if_pos hk]
  · rw [if_neg hk, getVal_eq_none_of_hasKey_false kw k (by simpa using hk)]
    rfl

theorem popKw_snd_of_hasKey_false (kw : Kw) (k : String) (d : PyVal)
    (h : hasKey kw k = false) : (popKw kw k d).2 = kw := by
  unfold popKw
  rw [if_neg (by simp [h])]

theorem popKw_fst_of_hasKey_false (kw : Kw) (k : String) (d : PyVal)
    (h : hasKey kw k = false) : (popKw kw k d).1 = d := by
  rw [popKw_fst, getVal_eq_none_of_hasKey_false kw k h]
  rfl

theorem hasKey_popKw_snd (kw : Kw) (k k2 : String) (d : PyVal) :
    hasKey (popKw kw k d).2 k2 = (hasKey kw k2 && !(k2 == k)) := by
  unfold popKw
  by_cases hk : hasKey kw k
  · rw [if_pos hk]
    exact hasKey_delKey kw k k2
  · rw [if_neg hk]
    by_cases h2 : k2 = k
    · subst h2
      have hf : hasKey kw k2 = false := by simpa using hk
      simp [hf]
    · have hb : (k2 == k) = false := by simpa using h2
      simp [hb]

theorem getVal_popKw_snd_ne (kw : Kw) (k k2 : String) (d : PyVal) (h : k2 ≠ k) :
    getVal (popKw kw k d).2 k2 = getVal kw k2 := by
  unfold popKw
  by_cases hk : hasKey kw k
  · rw [if_pos hk]
    exact getVal_delKey_ne kw k k2 h
  · rw [if_neg hk]

theorem getVal_mergeDefaults (d kw : Kw) (k : String) :
    getVal (mergeDefaults d kw) k = (getVal kw k).or (getVal d k) := by
  unfold mergeDefaults
  cases d with
  | nil =>
    have hc : (([] : Kw).isEmpty = true) := rfl
    rw [if_pos hc]
    cases getVal kw k <;> simp
  | cons p rest =>
    rw [if_neg (by simp)]
    exact getVal_dictMerge (p :: rest) kw k

theorem hasKey_mergeDefaults (d kw : Kw) (k : String) :
    hasKey (mergeDefaults d kw) k = (hasKey d k || hasKey kw k) := by
  rw [hasKey_eq_isSome_getVal, getVal_mergeDefaults,
    hasKey_eq_isSome_getVal d, hasKey_eq_isSome_getVal kw]
  cases getVal d k <;> cases getVal kw k <;> simp

theorem popSelectorRuleKey_id (fixedLLM : Bool) (kw : Kw)
    (h : hasKey kw "llm_selector_rule_key" = false) :
    popSelectorRuleKey fixedLLM kw = kw := by
  unfold popSelectorRuleKey
  cases fixedLLM
  · rw [if_neg (by simp), getVal_eq_none_of_hasKey_false kw _ h]
    simp [PyVal.truthy]
  · rw [if_pos rfl]

theorem popSelectorRuleKey_removes (kw : Kw)
    (h : ((getVal kw "llm_selector_rule_key").getD PyVal.none).truthy = true) :
    popSelectorRuleKey false kw = delKey kw "llm_selector_rule_key" := by
  unfold popSelectorRuleKey
  rw [if_neg (by simp), if_pos h]

theorem popSelectorRuleKey_cases (fixedLLM : Bool) (kw : Kw) :
    popSelectorRuleKey fixedLLM kw = kw
    ∨ popSelectorRuleKey fixedLLM kw = delKey kw "llm_selector_rule_key" := by
  unfold popSelectorRuleKey
  cases fixedLLM
  · rw [if_neg (by simp)]
    by_cases h : ((getVal kw "llm_selector_rule_key").getD PyVal.none).truthy
    · rw [if_pos h]
      exact Or.inr rfl
    · rw [if_neg h]
      exact Or.inl rfl
  · rw [if_pos rfl]
    exact Or.inl rfl

theorem buildChain_fst_cases (parserOpt : Option OutputParser) (fns mem cs : PyVal) (kw : Kw) :
    (buildChain parserOpt fns mem cs kw).1 = kw
    ∨ (buildChain parserOpt fns mem cs kw).1
        = setKey kw "function_call" (PyVal.foreign "llm_function") := by
  unfold buildChain
  by_cases hf : fns.truthy
  · rw [if_pos hf]
    exact Or.inl rfl
  · rw [if_neg hf]
    cases parserOpt with
    | none => exact Or.inl rfl
    | some p =>
      by_cases hp : p.isPydanticFnParser
      · right
        simp [hp]
      · left
        simp [hp]

theorem buildChain_fst_not_pydantic (parserOpt : Option OutputParser) (fns mem cs : PyVal)
    (kw : Kw) (hf : fns.truthy = false)
    (hp : ∀ p, parserOpt = some p → p.isPydanticFnParser = false) :
    (buildChain parserOpt fns mem cs kw).1 = kw := by
  unfold buildChain
  rw [if_neg (by simp [hf])]
  cases parserOpt with
  | none => rfl
  | some p =>
    simp [hp p rfl]

theorem hasKey_buildChain_fst_ne (parserOpt : Option OutputParser) (fns mem cs : PyVal)
    (kw : Kw) (k : String) (h : k ≠ "function_call") :
    hasKey (buildChain parserOpt fns mem cs kw).1 k = hasKey kw k := by
  rcases buildChain_fst_cases parserOpt fns mem cs kw with h1 | h1 <;> rw [h1]
  rw [hasKey_setKey]
  have hb : ("function_call" == k) = false := by
    simpa using fun he => h he.symm
  simp [hb]

theorem getVal_buildChain_fst_ne (parserOpt : Option OutputParser) (fns mem cs : PyVal)
    (kw : Kw) (k : String) (h : k ≠ "function_call") :
    getVal (buildChain parserOpt fns mem cs kw).1 k = getVal kw k := by
  rcases buildChain_fst_cases parserOpt fns mem cs kw with h1 | h1 <;> rw [h1]
  exact getVal_setKey_ne kw "function_call" k (PyVal.foreign "llm_function") h

theorem getVal_applyStopTokens_ne (stopTokens : List String) (kw : Kw) (k : String)
    (h : k ≠ "stop") : getVal (applyStopTokens stopTokens kw) k = getVal kw k := by
  unfold applyStopTokens
  by_cases hs : stopTokens.isEmpty
  · rw [if_pos hs]
  · rw [if_neg hs]
    exact getVal_setKey_ne kw "stop" k _ h

theorem contains_iff_mem_str (l : List String) (a : String) :
    l.contains a = true ↔ a ∈ l := List.elem_iff

theorem mem_unexpectedInputsOf (R : List String) (kw : Kw) (k : String) :
    k ∈ unexpectedInputsOf R kw
      ↔ (hasKey kw k = true ∧ k ∉ R ∧ k ∉ otherSupportedKwargs) := by
  unfold unexpectedInputsOf
  rw [List.mem_filter, ← hasKey_iff_mem]
  constructor
  · rintro ⟨h1, h2⟩
    rw [Bool.and_eq_true] at h2
    refine ⟨h1, ?_, ?_⟩
    · intro hm
      have := h2.1
      rw [(contains_iff_mem_str R k).mpr hm] at this
      simp at this
    · intro hm
      have := h2.2
      rw [(contains_iff_mem_str otherSupportedKwargs k).mpr hm] at this
      simp at this
  · rintro ⟨h1, h2, h3⟩
    refine ⟨h1, ?_⟩
    rw [Bool.and_eq_true]
    constructor
    · cases hc : R.contains k
      · rfl
      · exact absurd ((contains_iff_mem_str R k).mp hc) h2
    · cases hc : otherSupportedKwargs.contains k
      · rfl
      · exact absurd ((contains_iff_mem_str otherSupportedKwargs k).mp hc) h3

/-! Error-shape lemmas: which exceptions each stage can raise. -/

theorem resolveCaptureStream_error_shape (s : PyVal) (act : Bool) (kw : Kw) (e : PyErr)
    (h : resolveCaptureStream s act kw = Except.error e) : e = PyErr.valueError := by
  unfold resolveCaptureStream at h
  by_cases hk : hasKey kw "capture_stream"
  · rw [if_pos hk] at h
    by_cases hb : s.isBool
    · rw [if_neg (by simp [hb])] at h
      exact absurd h (by simp)
    · rw [if_pos (by simp [hb])] at h
      exact (Except.error.inj h).symm
  · rw [if_neg hk] at h
    exact absurd h (by simp)

theorem resolveInputSource_error_shape (args : List PyVal) (e : PyErr)
    (h : resolveInputSource args = Except.error e) : e = PyErr.positionalArgsError := by
  unfold resolveInputSource at h
  match args with
  | [] => exact absurd h (by simp)
  | [a] =>
    cases a <;> exact absurd h (by simp)
  | a :: b :: rest => exact (Except.error.inj h).symm

theorem appendStep_error_shape (c : Bool) (cb : PyVal) (e : PyErr)
    (h : (if c then appendStreamingCallback cb else Except.ok cb) = Except.error e) :
    e = PyErr.attributeError "append" := by
  cases c
  · exact absurd h (by simp)
  · rw [if_pos rfl] at h
    unfold appendStreamingCallback at h
    cases cb with
    | list xs => exact absurd h (by simp)
    | none => exact (Except.error.inj h).symm
    | bool b => exact (Except.error.inj h).symm
    | int n => exact (Except.error.inj h).symm
    | str s => exact (Except.error.inj h).symm
    | dict kvs => exact (Except.error.inj h).symm
    | obj attrs => exact (Except.error.inj h).symm
    | foreign t => exact (Except.error.inj h).symm

theorem memoryKeyOf_error_shape (m : PyVal) (e : PyErr)
    (h : memoryKeyOf m = Except.error e) : e = PyErr.attributeError "memory_key" := by
  cases m with
  | obj attrs =>
    unfold memoryKeyOf at h
    rw [if_pos (by simp [PyVal.truthy])] at h
    have h2 : (match getVal attrs "memory_key" with
        | some (PyVal.str k) => Except.ok (some k)
        | some _ => (Except.ok Option.none : Except PyErr (Option String))
        | Option.none => Except.error (PyErr.attributeError "memory_key")) = Except.error e := h
    cases hg : getVal attrs "memory_key" with
    | none =>
      rw [hg] at h2
      exact (Except.error.inj h2).symm
    | some v =>
      rw [hg] at h2
      cases v <;> exact absurd h2 (by simp)
  | none =>
    unfold memoryKeyOf at h
    by_cases hm : (PyVal.none).truthy = true
    · rw [if_pos hm] at h
      exact (Except.error.inj h).symm
    · rw [if_neg hm] at h
      exact absurd h (by simp)
  | bool b =>
    unfold memoryKeyOf at h
    by_cases hm : (PyVal.bool b).truthy = true
    · rw [if_pos hm] at h
      exact (Except.error.inj h).symm
    · rw [if_neg hm] at h
      exact absurd h (by simp)
  | int n =>
    unfold memoryKeyOf at h
    by_cases hm : (PyVal.int n).truthy = true
    · rw [if_pos hm] at h
      exact (Except.error.inj h).symm
    · rw [if_neg hm] at h
      exact absurd h (by simp)
  | str s =>
    unfold memoryKeyOf at h
    by_cases hm : (PyVal.str s).truthy = true
    · rw [if_pos hm] at h
      exact (Except.error.inj h).symm
    · rw [if_neg hm] at h
      exact absurd h (by simp)
  | list xs =>
    unfold memoryKeyOf at h
    by_cases hm : (PyVal.list xs).truthy = true
    · rw [if_pos hm] at h
      exact (Except.error.inj h).symm
    · rw [if_neg hm] at h
      exact absurd h (by simp)
  | dict kvs =>
    unfold memoryKeyOf at h
    by_cases hm : (PyVal.dict kvs).truthy = true
    · rw [if_pos hm] at h
      exact (Except.error.inj h).symm
    · rw [if_neg hm] at h
      exact absurd h (by simp)
  | foreign t =>
    unfold memoryKeyOf at h
    by_cases hm : (PyVal.foreign t).truthy = true
    · rw [if_pos hm] at h
      exact (Except.error.inj h).symm
    · rw [if_neg hm] at h
      exact absurd h (by simp)

theorem resolveFromSource_error_shape (attrs : List (String × PyVal)) (missing : List String)
    (kw : Kw) (e : PyErr) (h : resolveFromSource attrs missing kw = Except.error e) :
    ∃ k, e = PyErr.missingInput [k] := by
  induction missing generalizing kw with
  | nil => exact absurd h (by simp [resolveFromSource])
  | cons k rest ih =>
    unfold resolveFromSource at h
    cases hg : getVal attrs k with
    | none =>
      rw [hg] at h
      exact ⟨k, (Except.error.inj h).symm⟩
    | some v =>
      rw [hg] at h
      exact ih _ h

theorem validateInputsTail_error_shape (fiKey : String) (R : List String)
    (source : Option (List (String × PyVal))) (kw : Kw) (memKey : Option String) (e : PyErr)
    (h : validateInputsTail fiKey R source kw memKey = Except.error e) :
    ∃ ks, e = PyErr.missingInput ks := by
  unfold validateInputsTail at h
  by_cases hie : (memErase memKey
      (fiStepOf fiKey (R.filter (fun k => !(hasKey kw k))) kw).1).isEmpty
  · rw [if_pos hie] at h
    exact absurd h (by simp)
  · rw [if_neg hie] at h
    cases hsrc : source with
    | some attrs =>
      rw [hsrc] at h
      rcases resolveFromSource_error_shape attrs _ _ e h with ⟨k, hk⟩
      exact ⟨[k], hk⟩
    | none =>
      rw [hsrc] at h
      exact ⟨_, (Except.error.inj h).symm⟩

theorem validateInputs_error_shape (fiKey : String) (R : List String) (memory : PyVal)
    (source : Option (List (String × PyVal))) (kw : Kw) (e : PyErr)
    (h : validateInputs fiKey R memory source kw = Except.error e) :
    (∃ ks, e = PyErr.missingInput ks) ∨ e = PyErr.attributeError "memory_key" := by
  unfold validateInputs at h
  cases hmk : memoryKeyOf memory with
  | error e2 =>
    rw [hmk] at h
    right
    rw [← memoryKeyOf_error_shape memory e2 hmk]
    exact (Except.error.inj h).symm
  | ok memKey =>
    rw [hmk] at h
    have h2 : validateInputsTail fiKey R source kw memKey = Except.error e := h
    exact Or.inl (validateInputsTail_error_shape fiKey R source kw memKey e h2)

/-! Inversion lemmas: where an UnexpectedInput failure can come from. -/

theorem prepareStage4_unexpected_inv (cfg : Config) (collab : Collab)
    (source : Option (List (String × PyVal))) (callbacks memory : PyVal)
    (bc : Kw × ChainSpec) (keys valid : List String)
    (h : prepareStage4 cfg collab source callbacks memory bc
        = Except.error (PyErr.unexpectedInput keys valid)) :
    keys = unexpectedInputsOf collab.template.input_variables bc.1
    ∧ valid = collab.template.input_variables := by
  unfold prepareStage4 at h
  by_cases hemp : (unexpectedInputsOf collab.template.input_variables bc.1).isEmpty
  · rw [if_pos hemp] at h
    cases hv : validateInputs cfg.formatInstructionsKey collab.template.input_variables
        memory source bc.1 with
    | error e =>
      rw [hv] at h
      have he := Except.error.inj h
      rcases validateInputs_error_shape _ _ _ _ _ _ hv with ⟨ks, hks⟩ | hks <;>
        (rw [hks] at he; exact absurd he (by simp))
    | ok kw3 =>
      rw [hv] at h
      exact absurd h (by simp)
  · rw [if_neg hemp] at h
    have he := Except.error.inj h
    have h1 := (PyErr.unexpectedInput.injEq _ _ _ _).mp he
    exact ⟨h1.1.symm, h1.2.symm⟩

theorem prepareStage2_unexpected_inv (cfg : Config) (collab : Collab) (captureStream : PyVal)
    (source : Option (List (String × PyVal))) (kwargs2 : Kw) (keys valid : List String)
    (h : prepareStage2 cfg collab captureStream source kwargs2
        = Except.error (PyErr.unexpectedInput keys valid)) :
    ∃ callbacks, prepareStage3 cfg collab captureStream source callbacks
        (popKw kwargs2 "callbacks" (PyVal.list [])).2
      = Except.error (PyErr.unexpectedInput keys valid) := by
  unfold prepareStage2 at h
  cases happ : (if captureStream.truthy
      then appendStreamingCallback (popKw kwargs2 "callbacks" (PyVal.list [])).1
      else Except.ok (popKw kwargs2 "callbacks" (PyVal.list [])).1) with
  | error e =>
    rw [happ] at h
    have he := Except.error.inj h
    rw [appendStep_error_shape _ _ _ happ] at he
    exact absurd he (by simp)
  | ok cb =>
    rw [happ] at h
    exact ⟨cb, h⟩

theorem prepareCallArgs_unexpected_inv (cfg : Config) (collab : Collab) (args : List PyVal)
    (kwargs : Kw) (keys valid : List String)
    (h : prepareCallArgs cfg collab args kwargs
        = Except.error (PyErr.unexpectedInput keys valid)) :
    ∃ kw1 captureStream,
      ((hasKey kwargs "capture_stream" = false ∧ kw1 = kwargs)
        ∨ kw1 = delKey kwargs "capture_stream")
      ∧ prepareStage2 cfg collab captureStream Option.none
          (mergeDefaults collab.template.default_values (popSelectorRuleKey cfg.fixedLLM kw1))
          = Except.error (PyErr.unexpectedInput keys valid)
        ∨ ((hasKey kwargs "capture_stream" = false ∧ kw1 = kwargs)
            ∨ kw1 = delKey kwargs "capture_stream")
          ∧ ∃ attrs, prepareStage2 cfg collab captureStream (some attrs)
              (mergeDefaults collab.template.default_values (popSelectorRuleKey cfg.fixedLLM kw1))
              = Except.error (PyErr.unexpectedInput keys valid) := by
  unfold prepareCallArgs at h
  cases hres : resolveCaptureStream cfg.captureStreamSetting collab.streamingActive kwargs with
  | error e =>
    rw [hres] at h
    have he := Except.error.inj h
    rw [resolveCaptureStream_error_shape _ _ _ _ hres] at he
    exact absurd he (by simp)
  | ok pr =>
    rw [hres] at h
    cases hsrc : resolveInputSource args with
    | error e =>
      rw [hsrc] at h
      have he := Except.error.inj h
      rw [resolveInputSource_error_shape _ _ hsrc] at he
      exact absurd he (by simp)
    | ok source =>
      rw [hsrc] at h
      have hkw1 : (hasKey kwargs "capture_stream" = false ∧ pr.2 = kwargs)
          ∨ pr.2 = delKey kwargs "capture_stream" := by
        unfold resolveCaptureStream at hres
        by_cases hk : hasKey kwargs "capture_stream"
        · rw [if_pos hk] at hres
          by_cases hb : cfg.captureStreamSetting.isBool
          · rw [if_neg (by simp [hb])] at hres
            have := Except.ok.inj hres
            right
            rw [← this]
          · rw [if_pos (by simp [hb])] at hres
            exact absurd hres (by simp)
        · rw [if_neg hk] at hres
          have := Except.ok.inj hres
          left
          refine ⟨by simpa using hk, ?_⟩
          rw [← this]
      cases source with
      | none => exact ⟨pr.2, pr.1, Or.inl ⟨hkw1, h⟩⟩
      | some attrs => exact ⟨pr.2, pr.1, Or.inr ⟨hkw1, attrs, h⟩⟩

/-- The keys named by an UnexpectedInput failure raised from the second
pipeline stage are exactly the unexpected-inputs list over the
post-construction kwargs. -/
theorem keys_of_unexpected_from_stage2 (cfg : Config) (collab : Collab) (cs : PyVal)
    (source : Option (List (String × PyVal))) (kwargs2 : Kw) (keys valid : List String)
    (h : prepareStage2 cfg collab cs source kwargs2
        = Except.error (PyErr.unexpectedInput keys valid)) :
    keys = unexpectedInputsOf collab.template.input_variables
      (buildChain collab.template.outputParser
        (popKw (popKw (popKw kwargs2 "callbacks" (PyVal.list [])).2 "memory" PyVal.none).2
          "functions" PyVal.none).1
        (popKw (popKw kwargs2 "callbacks" (PyVal.list [])).2 "memory" PyVal.none).1
        cs
        (popKw (popKw (popKw kwargs2 "callbacks" (PyVal.list [])).2 "memory" PyVal.none).2
          "functions" PyVal.none).2).1
    ∧ valid = collab.template.input_variables := by
  rcases prepareStage2_unexpected_inv cfg collab cs source kwargs2 keys valid h with ⟨cb, h3⟩
  unfold prepareStage3 at h3
  exact prepareStage4_unexpected_inv _ _ _ _ _ _ _ _ h3

/-- Key membership in the kwargs dict at the unexpected-input check, for keys
other than the internally added function_call. -/
theorem hasKey_pipeline (parserOpt : Option OutputParser) (cs : PyVal) (kwargs2 : Kw)
    (k : String) (hk : k ≠ "function_call") :
    hasKey (buildChain parserOpt
        (popKw (popKw (popKw kwargs2 "callbacks" (PyVal.list [])).2 "memory" PyVal.none).2
          "functions" PyVal.none).1
        (popKw (popKw kwargs2 "callbacks" (PyVal.list [])).2 "memory" PyVal.none).1
        cs
        (popKw (popKw (popKw kwargs2 "callbacks" (PyVal.list [])).2 "memory" PyVal.none).2
          "functions" PyVal.none).2).1 k
      = (((hasKey kwargs2 k && !(k == "callbacks")) && !(k == "memory"))
          && !(k == "functions")) := by
  rw [hasKey_buildChain_fst_ne _ _ _ _ _ _ hk, hasKey_popKw_snd, hasKey_popKw_snd,
    hasKey_popKw_snd]

/-- C4 (amended) --- of the reserved keyword names, capture_stream, callbacks,
memory and functions are always removed from the general input mapping before
the unexpected-input validation (capture_stream and llm_selector_rule_key
provided the template's default values do not re-introduce them), stop and
the internal function_call key are exempted by the check itself, and
llm_selector_rule_key is removed only when no model was fixed at decoration
time and its value is truthy; hence none of these names can appear among the
UnexpectedInput keys. -/
theorem spec_c4_reserved_keys_removed (cfg : Config) (collab : Collab) (args : List PyVal)
    (kwargs : Kw) (keys valid : List String)
    (hdef1 : hasKey collab.template.default_values "capture_stream" = false)
    (hdef2 : hasKey collab.template.default_values "llm_selector_rule_key" = false)
    (hres : prepareCallArgs cfg collab args kwargs
        = Except.error (PyErr.unexpectedInput keys valid)) :
    "capture_stream" ∉ keys ∧ "callbacks" ∉ keys ∧ "memory" ∉ keys ∧ "functions" ∉ keys
    ∧ "stop" ∉ keys ∧ "function_call" ∉ keys
    ∧ (cfg.fixedLLM = false →
        ((getVal kwargs "llm_selector_rule_key").getD PyVal.none).truthy = true →
        "llm_selector_rule_key" ∉ keys) := by
  rcases prepareCallArgs_unexpected_inv cfg collab args kwargs keys valid hres with
    ⟨kw1, cs, (⟨hshape, h2⟩ | ⟨hshape, attrs, h2⟩)⟩ <;>
  · rcases keys_of_unexpected_from_stage2 cfg collab cs _ _ keys valid h2 with ⟨hkeys, _⟩
    have hcs1 : hasKey kw1 "capture_stream" = false := by
      rcases hshape with ⟨hk, he⟩ | he
      · rw [he]
        exact hk
      · rw [he]
        exact hasKey_delKey_self kwargs "capture_stream"
    have hpsel : hasKey (popSelectorRuleKey cfg.fixedLLM kw1) "capture_stream" = false := by
      rcases popSelectorRuleKey_cases cfg.fixedLLM kw1 with hp | hp <;> rw [hp]
      · exact hcs1
      · rw [hasKey_delKey_ne kw1 _ _ (by decide)]
        exact hcs1
    have hcs2 : hasKey (mergeDefaults collab.template.default_values
        (popSelectorRuleKey cfg.fixedLLM kw1)) "capture_stream" = false := by
      rw [hasKey_mergeDefaults, hdef1, hpsel]
      rfl
    refine ⟨?_, ?_, ?_, ?_, ?_, ?_, ?_⟩
    · intro hmem
      rw [hkeys] at hmem
      have hm := (mem_unexpectedInputsOf _ _ _).mp hmem
      rw [hasKey_pipeline _ _ _ _ (by decide)] at hm
      rw [hcs2] at hm
      simp at hm
    · intro hmem
      rw [hkeys] at hmem
      have hm := (mem_unexpectedInputsOf _ _ _).mp hmem
      exact hm.2.2 (by decide)
    · intro hmem
      rw [hkeys] at hmem
      have hm := (mem_unexpectedInputsOf _ _ _).mp hmem
      rw [hasKey_pipeline _ _ _ _ (by decide)] at hm
      rcases hm with ⟨hm1, _⟩
      rw [show (("memory" : String) == "memory") = true from by decide] at hm1
      simp at hm1
    · intro hmem
      rw [hkeys] at hmem
      have hm := (mem_unexpectedInputsOf _ _ _).mp hmem
      rw [hasKey_pipeline _ _ _ _ (by decide)] at hm
      rcases hm with ⟨hm1, _⟩
      rw [show (("functions" : String) == "functions") = true from by decide] at hm1
      simp at hm1
    · intro hmem
      rw [hkeys] at hmem
      have hm := (mem_unexpectedInputsOf _ _ _).mp hmem
      exact hm.2.2 (by decide)
    · intro hmem
      rw [hkeys] at hmem
      have hm := (mem_unexpectedInputsOf _ _ _).mp hmem
      exact hm.2.2 (by decide)
    · intro hfix htr hmem
      have hg1 : getVal kw1 "llm_selector_rule_key" = getVal kwargs "llm_selector_rule_key" := by
        rcases hshape with ⟨_, he⟩ | he <;> rw [he]
        exact getVal_delKey_ne kwargs _ _ (by decide)
      have hrem : popSelectorRuleKey cfg.fixedLLM kw1 = delKey kw1 "llm_selector_rule_key" := by
        rw [hfix]
        apply popSelectorRuleKey_removes
        rw [hg1]
        exact htr
      have hlk : hasKey (mergeDefaults collab.template.default_values
          (popSelectorRuleKey cfg.fixedLLM kw1)) "llm_selector_rule_key" = false := by
        rw [hasKey_mergeDefaults, hdef2, hrem, hasKey_delKey_self]
        rfl
      rw [hkeys] at hmem
      have hm := (mem_unexpectedInputsOf _ _ _).mp hmem
      rw [hasKey_pipeline _ _ _ _ (by decide)] at hm
      rw [hlk] at hm
      simp at hm

/-- Configuration with a model fixed at decoration time. -/
def cfgFixedLLM : Config := { cfgDefault with fixedLLM := true }

/-- C4 counterexample: with a model fixed at decoration time, the reserved
keyword llm_selector_rule_key is NOT removed (the pop at source lines 163-165
sits inside the `if not llm` branch) and triggers the UnexpectedInput failure
the claim rules out. -/
theorem spec_c4_selector_key_counterexample :
    prepareCallArgs cfgFixedLLM collabPlain []
        [("llm_selector_rule_key", PyVal.str "k"), ("topic", PyVal.str "c")]
      = Except.error (PyErr.unexpectedInput ["llm_selector_rule_key"] ["topic"]) := rfl

/-- C4 witness: the amended removal statement applied at a concrete failing
call. -/
theorem spec_c4_reserved_keys_removed_witness :
    (hasKey collabPlain.template.default_values "capture_stream" = false)
    ∧ (hasKey collabPlain.template.default_values "llm_selector_rule_key" = false)
    ∧ (prepareCallArgs cfgDefault collabPlain [] [("bogus", PyVal.int 1)]
        = Except.error (PyErr.unexpectedInput ["bogus"] ["topic"]))
    ∧ ("capture_stream" ∉ ["bogus"] ∧ "callbacks" ∉ ["bogus"] ∧ "memory" ∉ ["bogus"]
        ∧ "functions" ∉ ["bogus"] ∧ "stop" ∉ ["bogus"] ∧ "function_call" ∉ ["bogus"]
        ∧ (cfgDefault.fixedLLM = false →
            ((getVal [("bogus", PyVal.int 1)] "llm_selector_rule_key").getD PyVal.none).truthy
              = true →
            "llm_selector_rule_key" ∉ ["bogus"])) :=
  ⟨rfl, rfl, rfl,
    spec_c4_reserved_keys_removed cfgDefault collabPlain [] [("bogus", PyVal.int 1)]
      ["bogus"] ["topic"] rfl rfl rfl⟩

/-- The reserved caller keywords together with the internal function_call key. -/
def reservedOrInternalKeys : List String :=
  ["capture_stream", "callbacks", "memory", "functions", "stop", "function_call"]

theorem isEmpty_eq_false_of_mem {α : Type} (l : List α) (a : α) (h : a ∈ l) :
    l.isEmpty = false := by
  cases l
  · exact absurd h (by simp)
  · rfl

/-- Key membership after the selector-rule-key pop: a key survives exactly
when it was present and is not the llm_selector_rule_key being popped (no
fixed model and truthy value). -/
theorem hasKey_popSelectorRuleKey (cfg : Config) (kwargs : Kw) (k : String) :
    hasKey (popSelectorRuleKey cfg.fixedLLM kwargs) k = true ↔
      (hasKey kwargs k = true
        ∧ ¬(k = "llm_selector_rule_key" ∧ cfg.fixedLLM = false
            ∧ ((getVal kwargs "llm_selector_rule_key").getD PyVal.none).truthy = true)) := by
  unfold popSelectorRuleKey
  cases hfix : cfg.fixedLLM
  · rw [if_neg (by simp)]
    by_cases htr : ((getVal kwargs "llm_selector_rule_key").getD PyVal.none).truthy = true
    · rw [if_pos htr]
      by_cases hkl : k = "llm_selector_rule_key"
      · subst hkl
        rw [hasKey_delKey_self]
        constructor
        · intro hcontra
          exact absurd hcontra (by simp)
        · rintro ⟨h1, h2⟩
          exact absurd ⟨rfl, rfl, htr⟩ h2
      · rw [hasKey_delKey_ne _ _ _ hkl]
        constructor
        · intro h1
          exact ⟨h1, fun hc => hkl hc.1⟩
        · exact fun h1 => h1.1
    · rw [if_neg htr]
      constructor
      · intro h1
        exact ⟨h1, fun hc => htr hc.2.2⟩
      · exact fun h1 => h1.1
  · rw [if_pos rfl]
    constructor
    · intro h1
      refine ⟨h1, ?_⟩
      rintro ⟨_, hf, _⟩
      simp at hf
    · exact fun h1 => h1.1

/-- prepare_call_args with no capture_stream kwarg and an accepted positional
shape reduces to the second stage over the merged kwargs. -/
theorem prepareCallArgs_no_capture (cfg : Config) (collab : Collab) (args : List PyVal)
    (kwargs : Kw) (source : Option (List (String × PyVal)))
    (hcsk : hasKey kwargs "capture_stream" = false)
    (hsrc : resolveInputSource args = Except.ok source) :
    prepareCallArgs cfg collab args kwargs
      = prepareStage2 cfg collab
          (streamDowngrade collab.streamingActive cfg.captureStreamSetting) source
          (mergeDefaults collab.template.default_values
            (popSelectorRuleKey cfg.fixedLLM kwargs)) := by
  unfold prepareCallArgs
  rw [resolveCaptureStream_ok_absent _ _ _ hcsk, hsrc]

/-- When the popped callbacks value is a list, the second stage reduces to the
third with some callbacks value. -/
theorem prepareStage2_ok_callbacks (cfg : Config) (collab : Collab) (cs : PyVal)
    (source : Option (List (String × PyVal))) (kwargs2 : Kw) (xs : List PyVal)
    (hpop : (popKw kwargs2 "callbacks" (PyVal.list [])).1 = PyVal.list xs) :
    ∃ cbv, prepareStage2 cfg collab cs source kwargs2
      = prepareStage3 cfg collab cs source cbv (popKw kwargs2 "callbacks" (PyVal.list [])).2 := by
  unfold prepareStage2
  rw [hpop]
  cases hc : cs.truthy
  · rw [if_neg (by simp)]
    exact ⟨PyVal.list xs, rfl⟩
  · rw [if_pos rfl]
    exact ⟨PyVal.list (xs ++ [PyVal.foreign "StreamingContextCallback"]), rfl⟩

/-- The fourth stage raises UnexpectedInput exactly when the check list is
nonempty, naming that list and the declared inputs. -/
theorem prepareStage4_unexpected_fire (cfg : Config) (collab : Collab)
    (source : Option (List (String × PyVal))) (cbv mem : PyVal) (bc : Kw × ChainSpec)
    (h : (unexpectedInputsOf collab.template.input_variables bc.1).isEmpty = false) :
    prepareStage4 cfg collab source cbv mem bc
      = Except.error (PyErr.unexpectedInput
          (unexpectedInputsOf collab.template.input_variables bc.1)
          collab.template.input_variables) := by
  unfold prepareStage4
  rw [if_neg (by simp [h])]

/-- C6 (amended) --- a keyword argument whose name is neither a declared
template input, nor one of capture_stream / callbacks / memory / functions /
stop / function_call, nor an llm_selector_rule_key that gets popped (no fixed
model and truthy value), makes the call fail with UnexpectedInput listing
exactly the offending keys and the valid input set, regardless of how many
valid keys were also supplied. The original claim fails for the key
function_call, which the check exempts although it is neither declared nor
reserved. -/
theorem spec_c6_unexpected_input_failure (cfg : Config) (collab : Collab) (kwargs : Kw)
    (b : String)
    (hcsk : hasKey kwargs "capture_stream" = false)
    (hdefcb : hasKey collab.template.default_values "callbacks" = false)
    (hcb : ∀ v, getVal kwargs "callbacks" = some v → ∃ xs, v = PyVal.list xs)
    (hdef : ∀ k, hasKey collab.template.default_values k = true →
        k ∈ collab.template.input_variables)
    (hb : hasKey kwargs b = true)
    (hb1 : b ∉ collab.template.input_variables)
    (hb2 : b ∉ reservedOrInternalKeys)
    (hb3 : ¬(b = "llm_selector_rule_key" ∧ cfg.fixedLLM = false
        ∧ ((getVal kwargs "llm_selector_rule_key").getD PyVal.none).truthy = true)) :
    ∃ keys, prepareCallArgs cfg collab [] kwargs
        = Except.error (PyErr.unexpectedInput keys collab.template.input_variables)
      ∧ b ∈ keys
      ∧ (∀ k, k ∈ keys ↔
          (hasKey kwargs k = true ∧ k ∉ collab.template.input_variables
            ∧ k ∉ reservedOrInternalKeys
            ∧ ¬(k = "llm_selector_rule_key" ∧ cfg.fixedLLM = false
                ∧ ((getVal kwargs "llm_selector_rule_key").getD PyVal.none).truthy = true))) := by
  set kwargs2 := mergeDefaults collab.template.default_values
    (popSelectorRuleKey cfg.fixedLLM kwargs) with hkw2
  have hgcb : getVal kwargs2 "callbacks" = getVal kwargs "callbacks" := by
    rw [hkw2, getVal_mergeDefaults,
      getVal_eq_none_of_hasKey_false _ _ hdefcb]
    have hps : getVal (popSelectorRuleKey cfg.fixedLLM kwargs) "callbacks"
        = getVal kwargs "callbacks" := by
      rcases popSelectorRuleKey_cases cfg.fixedLLM kwargs with hp | hp <;> rw [hp]
      exact getVal_delKey_ne kwargs _ _ (by decide)
    rw [hps]
    cases getVal kwargs "callbacks" <;> rfl
  have hxs : ∃ xs, (popKw kwargs2 "callbacks" (PyVal.list [])).1 = PyVal.list xs := by
    rw [popKw_fst, hgcb]
    cases hgv : getVal kwargs "callbacks" with
    | none => exact ⟨[], rfl⟩
    | some v =>
      rcases hcb v hgv with ⟨xs, hv⟩
      exact ⟨xs, by rw [hv]; rfl⟩
  obtain ⟨xs, hpop⟩ := hxs
  obtain ⟨cbv, hs23⟩ := prepareStage2_ok_callbacks cfg collab
    (streamDowngrade collab.streamingActive cfg.captureStreamSetting) Option.none kwargs2 xs hpop
  have hchar : ∀ k, k ∈ unexpectedInputsOf collab.template.input_variables
      (buildChain collab.template.outputParser
        (popKw (popKw (popKw kwargs2 "callbacks" (PyVal.list [])).2 "memory" PyVal.none).2
          "functions" PyVal.none).1
        (popKw (popKw kwargs2 "callbacks" (PyVal.list [])).2 "memory" PyVal.none).1
        (streamDowngrade collab.streamingActive cfg.captureStreamSetting)
        (popKw (popKw (popKw kwargs2 "callbacks" (PyVal.list [])).2 "memory" PyVal.none).2
          "functions" PyVal.none).2).1 ↔
      (hasKey kwargs k = true ∧ k ∉ collab.template.input_variables
        ∧ k ∉ reservedOrInternalKeys
        ∧ ¬(k = "llm_selector_rule_key" ∧ cfg.fixedLLM = false
            ∧ ((getVal kwargs "llm_selector_rule_key").getD PyVal.none).truthy = true)) := by
    intro k
    rw [mem_unexpectedInputsOf]
    constructor
    · rintro ⟨h1, h2, h3⟩
      have hkfc : k ≠ "function_call" := by
        intro he
        exact h3 (by rw [he]; simp [otherSupportedKwargs])
      rw [hasKey_pipeline _ _ _ _ hkfc] at h1
      rw [Bool.and_eq_true, Bool.and_eq_true, Bool.and_eq_true] at h1
      obtain ⟨⟨⟨hk2, hcb2⟩, hmem2⟩, hfn2⟩ := h1
      rw [hkw2, hasKey_mergeDefaults, Bool.or_eq_true] at hk2
      rcases hk2 with hd | hp
      · exact absurd (hdef k hd) h2
      · have hps := (hasKey_popSelectorRuleKey cfg kwargs k).mp hp
        refine ⟨hps.1, h2, ?_, hps.2⟩
        intro hres
        simp only [reservedOrInternalKeys, List.mem_cons, List.not_mem_nil, or_false] at hres
        rcases hres with he | he | he | he | he | he
        · rw [he] at hps
          rw [hcsk] at hps
          exact absurd hps.1 (by simp)
        · rw [he] at hcb2
          simp at hcb2
        · rw [he] at hmem2
          simp at hmem2
        · rw [he] at hfn2
          simp at hfn2
        · exact h3 (by rw [he]; simp [otherSupportedKwargs])
        · exact hkfc he
    · rintro ⟨h1, h2, h3, h4⟩
      have hkfc : k ≠ "function_call" := by
        intro he
        exact h3 (by rw [he]; simp [reservedOrInternalKeys])
      have hcb2 : (k == "callbacks") = false := by
        simp only [beq_eq_false_iff_ne, ne_eq]
        intro he
        exact h3 (by rw [he]; simp [reservedOrInternalKeys])
      have hmem2 : (k == "memory") = false := by
        simp only [beq_eq_false_iff_ne, ne_eq]
        intro he
        exact h3 (by rw [he]; simp [reservedOrInternalKeys])
      have hfn2 : (k == "functions") = false := by
        simp only [beq_eq_false_iff_ne, ne_eq]
        intro he
        exact h3 (by rw [he]; simp [reservedOrInternalKeys])
      refine ⟨?_, h2, ?_⟩
      · rw [hasKey_pipeline _ _ _ _ hkfc]
        have hps : hasKey (popSelectorRuleKey cfg.fixedLLM kwargs) k = true :=
          (hasKey_popSelectorRuleKey cfg kwargs k).mpr ⟨h1, h4⟩
        rw [hkw2, hasKey_mergeDefaults, hps, hcb2, hmem2, hfn2]
        simp
      · intro hos
        simp only [otherSupportedKwargs, List.mem_cons, List.not_mem_nil, or_false] at hos
        rcases hos with he | he | he
        · exact h3 (by rw [he]; simp [reservedOrInternalKeys])
        · exact h3 (by rw [he]; simp [reservedOrInternalKeys])
        · exact hkfc he
  have hbmem := (hchar b).mpr ⟨hb, hb1, hb2, hb3⟩
  refine ⟨_, ?_, hbmem, hchar⟩
  rw [prepareCallArgs_no_capture cfg collab [] kwargs Option.none hcsk rfl, ← hkw2, hs23]
  unfold prepareStage3
  exact prepareStage4_unexpected_fire cfg collab Option.none cbv _ _
    (isEmpty_eq_false_of_mem _ _ hbmem)

/-- C6 counterexample: the key function_call is neither a declared template
input nor one of the six reserved names, yet the call does not fail ---
source line 229 exempts it from the unexpected-input check, so the invocation
completes normally. -/
theorem spec_c6_function_call_counterexample :
    ("function_call" ∉ collabPlain.template.input_variables)
    ∧ ("function_call"
        ∉ ["capture_stream", "callbacks", "memory", "functions", "llm_selector_rule_key", "stop"])
    ∧ wrapper cfgDefault collabPlain []
        [("function_call", PyVal.str "f"), ("topic", PyVal.str "c")]
      = (Except.ok (InvocationResult.plain (PyVal.str "Cats are great.")), [Event.chainCall]) := by
  refine ⟨?_, by decide, rfl⟩
  show "function_call" ∉ ["topic"]
  decide

/-- C6 witness: the amended unexpected-input statement applied at a concrete
call with one offending key and one valid key. -/
theorem spec_c6_unexpected_input_failure_witness :
    (hasKey [("bogus", PyVal.int 1), ("topic", PyVal.str "c")] "capture_stream" = false)
    ∧ (hasKey collabPlain.template.default_values "callbacks" = false)
    ∧ (hasKey [("bogus", PyVal.int 1), ("topic", PyVal.str "c")] "bogus" = true)
    ∧ ("bogus" ∉ collabPlain.template.input_variables)
    ∧ ("bogus" ∉ reservedOrInternalKeys)
    ∧ (∃ keys, prepareCallArgs cfgDefault collabPlain []
          [("bogus", PyVal.int 1), ("topic", PyVal.str "c")]
        = Except.error (PyErr.unexpectedInput keys collabPlain.template.input_variables)
      ∧ "bogus" ∈ keys
      ∧ (∀ k, k ∈ keys ↔
          (hasKey [("bogus", PyVal.int 1), ("topic", PyVal.str "c")] k = true
            ∧ k ∉ collabPlain.template.input_variables
            ∧ k ∉ reservedOrInternalKeys
            ∧ ¬(k = "llm_selector_rule_key" ∧ cfgDefault.fixedLLM = false
                ∧ ((getVal [("bogus", PyVal.int 1), ("topic", PyVal.str "c")]
                    "llm_selector_rule_key").getD PyVal.none).truthy = true)))) :=
  ⟨rfl, rfl, rfl, by decide, by decide,
    spec_c6_unexpected_input_failure cfgDefault collabPlain
      [("bogus", PyVal.int 1), ("topic", PyVal.str "c")] "bogus"
      rfl rfl
      (fun v h => by
        rw [show getVal [("bogus", PyVal.int 1), ("topic", PyVal.str "c")] "callbacks"
            = Option.none from rfl] at h
        exact Option.noConfusion h)
      (fun k h => by
        rw [show collabPlain.template.default_values = ([] : Kw) from rfl] at h
        simp [hasKey] at h)
      rfl (by decide) (by decide)
      (fun h => absurd h.1 (by decide))⟩

/-! Lemmas about the missing-inputs validation, for the argument-assembly
claim. -/

theorem isEmpty_eq_false_of_ne_nil {α : Type} (l : List α) (h : l ≠ []) :
    l.isEmpty = false := by
  cases l
  · exact absurd rfl h
  · rfl

theorem fiStepOf_not_mem (fiKey : String) (M : List String) (kwf : Kw) (h : fiKey ∉ M) :
    fiStepOf fiKey M kwf = (M, kwf) := by
  unfold fiStepOf
  rw [if_neg]
  intro hc
  exact h ((contains_iff_mem_str M fiKey).mp hc)

theorem validateInputsTail_no_missing (fiKey : String) (R : List String)
    (source : Option (List (String × PyVal))) (kwf : Kw)
    (h : R.filter (fun k => !(hasKey kwf k)) = []) :
    validateInputsTail fiKey R source kwf Option.none = Except.ok kwf := by
  unfold validateInputsTail
  rw [h, fiStepOf_not_mem fiKey [] kwf (by simp)]
  rw [show memErase Option.none ([] : List String) = [] from rfl]
  have hc : (([] : List String).isEmpty = true) := rfl
  rw [if_pos hc]

theorem validateInputsTail_missing_no_source (fiKey : String) (R : List String)
    (kwf : Kw) (M : List String)
    (hM : R.filter (fun k => !(hasKey kwf k)) = M) (hne : M ≠ []) (hfi : fiKey ∉ M) :
    validateInputsTail fiKey R Option.none kwf Option.none
      = Except.error (PyErr.missingInput M) := by
  unfold validateInputsTail
  rw [hM, fiStepOf_not_mem fiKey M kwf hfi]
  rw [show memErase Option.none M = M from rfl]
  rw [if_neg (by simp [isEmpty_eq_false_of_ne_nil M hne])]

theorem validateInputsTail_fi_only (fiKey : String) (R : List String)
    (source : Option (List (String × PyVal))) (kwf : Kw)
    (h : R.filter (fun k => !(hasKey kwf k)) = [fiKey]) :
    validateInputsTail fiKey R source kwf Option.none
      = Except.ok (setKey kwf fiKey PyVal.none) := by
  unfold validateInputsTail
  rw [h]
  have hfs : fiStepOf fiKey [fiKey] kwf = ([], setKey kwf fiKey PyVal.none) := by
    unfold fiStepOf
    rw [if_pos (by simp)]
    simp
  rw [hfs]
  rw [show memErase Option.none ([] : List String) = [] from rfl]
  have hc : (([] : List String).isEmpty = true) := rfl
  rw [if_pos hc]

theorem validateInputsTail_memory_exempt (fiKey : String) (R : List String)
    (source : Option (List (String × PyVal))) (kwf : Kw) (mk : String)
    (h : R.filter (fun k => !(hasKey kwf k)) = [mk]) (hne : mk ≠ fiKey) :
    validateInputsTail fiKey R source kwf (some mk) = Except.ok kwf := by
  unfold validateInputsTail
  have hnm : fiKey ∉ [mk] := by
    simp only [List.mem_singleton]
    exact fun he => hne he.symm
  rw [h, fiStepOf_not_mem fiKey [mk] kwf hnm]
  have hme : memErase (some mk) [mk] = [] := by
    show (if [mk].contains mk = true then [mk].erase mk else [mk]) = []
    rw [if_pos (by simp)]
    simp
  rw [hme]
  have hc : (([] : List String).isEmpty = true) := rfl
  rw [if_pos hc]

theorem resolveFromSource_ok (attrs : List (String × PyVal)) (missing : List String)
    (kwf : Kw) (h : ∀ k, k ∈ missing → (getVal attrs k).isSome = true) :
    ∃ kwf2, resolveFromSource attrs missing kwf = Except.ok kwf2
      ∧ (∀ k, k ∈ missing → getVal kwf2 k = getVal attrs k)
      ∧ (∀ k, k ∉ missing → getVal kwf2 k = getVal kwf k) := by
  induction missing generalizing kwf with
  | nil => exact ⟨kwf, rfl, by simp, fun k _ => rfl⟩
  | cons k1 rest ih =>
    have h1 := h k1 (by simp)
    cases hg : getVal attrs k1 with
    | none =>
      rw [hg] at h1
      simp at h1
    | some v =>
      obtain ⟨kwf2, hok, hin, hout⟩ := ih (setKey kwf k1 v) (fun k hk => h k (by simp [hk]))
      refine ⟨kwf2, ?_, ?_, ?_⟩
      · unfold resolveFromSource
        rw [hg]
        exact hok
      · intro k hk
        rcases List.mem_cons.mp hk with he | hm
        · subst he
          by_cases hmr : k ∈ rest
          · exact hin k hmr
          · rw [hout k hmr, getVal_setKey_self, hg]
        · exact hin k hm
      · intro k hk
        have hk1 : k ≠ k1 := fun he => hk (by simp [he])
        have hkr : k ∉ rest := fun hm => hk (by simp [hm])
        rw [hout k hkr, getVal_setKey_ne _ _ _ _ hk1]

theorem validateInputsTail_with_source (fiKey : String) (R : List String) (kwf : Kw)
    (attrs : List (String × PyVal)) (M : List String)
    (hM : R.filter (fun k => !(hasKey kwf k)) = M) (hne : M ≠ []) (hfi : fiKey ∉ M)
    (hattr : ∀ k, k ∈ M → (getVal attrs k).isSome = true) :
    ∃ kwf2, validateInputsTail fiKey R (some attrs) kwf Option.none = Except.ok kwf2
      ∧ (∀ k, k ∈ M → getVal kwf2 k = getVal attrs k)
      ∧ (∀ k, k ∉ M → getVal kwf2 k = getVal kwf k) := by
  unfold validateInputsTail
  rw [hM, fiStepOf_not_mem fiKey M kwf hfi]
  rw [show memErase Option.none M = M from rfl]
  rw [if_neg (by simp [isEmpty_eq_false_of_ne_nil M hne])]
  exact resolveFromSource_ok attrs M kwf hattr

theorem validateInputsTail_source_fail (fiKey : String) (R : List String) (kwf : Kw)
    (attrs : List (String × PyVal)) (k1 : String) (rest : List String)
    (hM : R.filter (fun k => !(hasKey kwf k)) = k1 :: rest) (hfi : fiKey ∉ k1 :: rest)
    (hg : getVal attrs k1 = Option.none) :
    validateInputsTail fiKey R (some attrs) kwf Option.none
      = Except.error (PyErr.missingInput [k1]) := by
  unfold validateInputsTail
  rw [hM, fiStepOf_not_mem fiKey (k1 :: rest) kwf hfi]
  rw [show memErase Option.none (k1 :: rest) = k1 :: rest from rfl]
  rw [if_neg (by simp)]
  unfold resolveFromSource
  rw [hg]

/-- Under hygienic inputs (no reserved names among the kwargs, template
defaults or declared inputs, and a non-pydantic parser), prepare_call_args
reduces to the missing-inputs validation over the merged kwargs: the call
result is the validation error, or success with the validated kwargs (plus
stop tokens) as inputs. -/
theorem prepareCallArgs_clean (cfg : Config) (collab : Collab) (args : List PyVal)
    (kwargs : Kw) (source : Option (List (String × PyVal)))
    (hsrc : resolveInputSource args = Except.ok source)
    (hcsk : hasKey kwargs "capture_stream" = false)
    (hlsrk : hasKey kwargs "llm_selector_rule_key" = false)
    (hcb : hasKey kwargs "callbacks" = false)
    (hdefcb : hasKey collab.template.default_values "callbacks" = false)
    (hmem : hasKey kwargs "memory" = false)
    (hdefmem : hasKey collab.template.default_values "memory" = false)
    (hfn : hasKey kwargs "functions" = false)
    (hdeffn : hasKey collab.template.default_values "functions" = false)
    (hparser : ∀ p, collab.template.outputParser = some p → p.isPydanticFnParser = false)
    (hunexp : unexpectedInputsOf collab.template.input_variables
        (mergeDefaults collab.template.default_values kwargs) = []) :
    ∃ cbv csp, prepareCallArgs cfg collab args kwargs
      = (match validateInputs cfg.formatInstructionsKey collab.template.input_variables
            PyVal.none source (mergeDefaults collab.template.default_values kwargs) with
         | Except.error e => Except.error e
         | Except.ok kwf2 =>
           Except.ok (csp,
             { inputs := applyStopTokens cfg.stopTokens kwf2, callbacks := cbv })) := by
  have hk2cb : hasKey (mergeDefaults collab.template.default_values kwargs) "callbacks"
      = false := by
    rw [hasKey_mergeDefaults, hdefcb, hcb]
    rfl
  have hk2mem : hasKey (mergeDefaults collab.template.default_values kwargs) "memory"
      = false := by
    rw [hasKey_mergeDefaults, hdefmem, hmem]
    rfl
  have hk2fn : hasKey (mergeDefaults collab.template.default_values kwargs) "functions"
      = false := by
    rw [hasKey_mergeDefaults, hdeffn, hfn]
    rfl
  have hpopcb : popKw (mergeDefaults collab.template.default_values kwargs) "callbacks"
      (PyVal.list [])
      = (PyVal.list [], mergeDefaults collab.template.default_values kwargs) := by
    unfold popKw
    rw [if_neg (by simp [hk2cb])]
  have hpopmem : popKw (mergeDefaults collab.template.default_values kwargs) "memory"
      PyVal.none = (PyVal.none, mergeDefaults collab.template.default_values kwargs) := by
    unfold popKw
    rw [if_neg (by simp [hk2mem])]
  have hpopfn : popKw (mergeDefaults collab.template.default_values kwargs) "functions"
      PyVal.none = (PyVal.none, mergeDefaults collab.template.default_values kwargs) := by
    unfold popKw
    rw [if_neg (by simp [hk2fn])]
  have happ : ∃ cbv, (if (streamDowngrade collab.streamingActive cfg.captureStreamSetting).truthy
      then appendStreamingCallback (PyVal.list [])
      else Except.ok (PyVal.list [])) = Except.ok cbv := by
    cases (streamDowngrade collab.streamingActive cfg.captureStreamSetting).truthy
    · exact ⟨PyVal.list [], rfl⟩
    · exact ⟨PyVal.list [PyVal.foreign "StreamingContextCallback"], rfl⟩
  obtain ⟨cbv, happ⟩ := happ
  refine ⟨cbv, (buildChain collab.template.outputParser PyVal.none PyVal.none
      (streamDowngrade collab.streamingActive cfg.captureStreamSetting)
      (mergeDefaults collab.template.default_values kwargs)).2, ?_⟩
  rw [prepareCallArgs_no_capture cfg collab args kwargs source hcsk hsrc,
    popSelectorRuleKey_id _ _ hlsrk]
  unfold prepareStage2
  simp only [hpopcb]
  rw [happ]
  unfold prepareStage3
  simp only [hpopmem, hpopfn]
  have hbc1 : (buildChain collab.template.outputParser PyVal.none PyVal.none
      (streamDowngrade collab.streamingActive cfg.captureStreamSetting)
      (mergeDefaults collab.template.default_values kwargs)).1
      = mergeDefaults collab.template.default_values kwargs :=
    buildChain_fst_not_pydantic _ _ _ _ _ rfl hparser
  unfold prepareStage4
  rw [hbc1]
  rw [if_pos (by simp [hunexp])]

/-- The declared inputs still missing after merging the template's default
values under the caller's kwargs. -/
def missingAfterDefaults (collab : Collab) (kwargs : Kw) : List String :=
  collab.template.input_variables.filter
    (fun k => !(hasKey (mergeDefaults collab.template.default_values kwargs) k))

/-- When every supplied kwarg and every default key is a declared input, the
unexpected-inputs check passes. -/
theorem unexpected_empty_of_declared (collab : Collab) (kwargs : Kw)
    (hkw : ∀ k, hasKey kwargs k = true → k ∈ collab.template.input_variables)
    (hDsub : ∀ k, hasKey collab.template.default_values k = true →
        k ∈ collab.template.input_variables) :
    unexpectedInputsOf collab.template.input_variables
      (mergeDefaults collab.template.default_values kwargs) = [] := by
  unfold unexpectedInputsOf
  rw [List.filter_eq_nil_iff]
  intro a ha
  have hk : hasKey (mergeDefaults collab.template.default_values kwargs) a = true :=
    (hasKey_iff_mem _ _).mpr ha
  rw [hasKey_mergeDefaults, Bool.or_eq_true] at hk
  have haR : a ∈ collab.template.input_variables := by
    rcases hk with h | h
    · exact hDsub a h
    · exact hkw a h
  intro hcon
  rw [Bool.and_eq_true] at hcon
  have h1 : List.contains collab.template.input_variables a = false := by
    rw [← Bool.not_eq_true']
    exact hcon.1
  rw [(contains_iff_mem_str _ a).mpr haR] at h1
  exact absurd h1 (by simp)

/-- C5 --- claim: with required inputs R and defaults D, supplying R minus D
as keywords passes argument assembly with D merged at lowest precedence and
explicit keywords winning; a declared input still missing after defaulting is
resolved by attribute lookup on the sole positional object when one was given
and otherwise fails with MissingInput naming the missing keys; the
format-instructions slot is instead filled with the empty (None) placeholder
and the active memory's key is exempted by the validation. -/
theorem spec_c5_argument_assembly (cfg : Config) (collab : Collab) (kwargs : Kw)
    (hclean : ∀ k, k ∈ reservedOrInternalKeys ∨ k = "llm_selector_rule_key" →
        hasKey kwargs k = false ∧ hasKey collab.template.default_values k = false
          ∧ k ∉ collab.template.input_variables)
    (hkw : ∀ k, hasKey kwargs k = true → k ∈ collab.template.input_variables)
    (hDsub : ∀ k, hasKey collab.template.default_values k = true →
        k ∈ collab.template.input_variables)
    (hparser : ∀ p, collab.template.outputParser = some p → p.isPydanticFnParser = false) :
    (missingAfterDefaults collab kwargs = [] →
      ∃ prepared, prepareCallArgs cfg collab [] kwargs = Except.ok prepared
        ∧ ∀ k, k ∈ collab.template.input_variables →
            getVal prepared.2.inputs k
              = (getVal kwargs k).or (getVal collab.template.default_values k))
    ∧ (missingAfterDefaults collab kwargs ≠ [] →
        cfg.formatInstructionsKey ∉ missingAfterDefaults collab kwargs →
        prepareCallArgs cfg collab [] kwargs
          = Except.error (PyErr.missingInput (missingAfterDefaults collab kwargs)))
    ∧ (missingAfterDefaults collab kwargs = [cfg.formatInstructionsKey] →
        ∃ prepared, prepareCallArgs cfg collab [] kwargs = Except.ok prepared
          ∧ getVal prepared.2.inputs cfg.formatInstructionsKey = some PyVal.none)
    ∧ (∀ attrs, missingAfterDefaults collab kwargs ≠ [] →
        cfg.formatInstructionsKey ∉ missingAfterDefaults collab kwargs →
        (∀ k, k ∈ missingAfterDefaults collab kwargs → (getVal attrs k).isSome = true) →
        ∃ prepared, prepareCallArgs cfg collab [PyVal.obj attrs] kwargs = Except.ok prepared
          ∧ (∀ k, k ∈ missingAfterDefaults collab kwargs →
              getVal prepared.2.inputs k = getVal attrs k))
    ∧ (∀ attrs k1 rest, missingAfterDefaults collab kwargs = k1 :: rest →
        cfg.formatInstructionsKey ∉ k1 :: rest →
        getVal attrs k1 = Option.none →
        prepareCallArgs cfg collab [PyVal.obj attrs] kwargs
          = Except.error (PyErr.missingInput [k1]))
    ∧ (∀ mk kwf2, mk ≠ cfg.formatInstructionsKey →
        collab.template.input_variables.filter (fun k => !(hasKey kwf2 k)) = [mk] →
        validateInputs cfg.formatInstructionsKey collab.template.input_variables
          (PyVal.obj [("memory_key", PyVal.str mk)]) Option.none kwf2 = Except.ok kwf2) := by
  have hcsk := (hclean "capture_stream" (Or.inl (by simp [reservedOrInternalKeys])))
  have hcbf := (hclean "callbacks" (Or.inl (by simp [reservedOrInternalKeys])))
  have hmemf := (hclean "memory" (Or.inl (by simp [reservedOrInternalKeys])))
  have hfnf := (hclean "functions" (Or.inl (by simp [reservedOrInternalKeys])))
  have hstopf := (hclean "stop" (Or.inl (by simp [reservedOrInternalKeys])))
  have hlsrkf := (hclean "llm_selector_rule_key" (Or.inr rfl))
  have hunexp := unexpected_empty_of_declared collab kwargs hkw hDsub
  have hMd : collab.template.input_variables.filter
      (fun k => !(hasKey (mergeDefaults collab.template.default_values kwargs) k))
      = missingAfterDefaults collab kwargs := rfl
  have hstopR : ∀ k, k ∈ collab.template.input_variables → k ≠ "stop" := by
    intro k hk he
    rw [he] at hk
    exact hstopf.2.2 hk
  refine ⟨?_, ?_, ?_, ?_, ?_, ?_⟩
  · intro hM0
    obtain ⟨cbv0, csp0, hmain0⟩ := prepareCallArgs_clean cfg collab [] kwargs Option.none rfl
      hcsk.1 hlsrkf.1 hcbf.1 hcbf.2.1 hmemf.1 hmemf.2.1 hfnf.1 hfnf.2.1 hparser hunexp
    have hvi : validateInputs cfg.formatInstructionsKey collab.template.input_variables
        PyVal.none Option.none (mergeDefaults collab.template.default_values kwargs)
        = Except.ok (mergeDefaults collab.template.default_values kwargs) := by
      unfold validateInputs
      rw [show memoryKeyOf PyVal.none = Except.ok Option.none from rfl]
      exact validateInputsTail_no_missing _ _ _ _ (hMd.trans hM0)
    rw [hvi] at hmain0
    refine ⟨(csp0, ⟨applyStopTokens cfg.stopTokens
        (mergeDefaults collab.template.default_values kwargs), cbv0, true⟩),
      hmain0, ?_⟩
    intro k hk
    show getVal (applyStopTokens cfg.stopTokens
        (mergeDefaults collab.template.default_values kwargs)) k = _
    rw [getVal_applyStopTokens_ne _ _ _ (hstopR k hk), getVal_mergeDefaults]
  · intro hne hfi
    obtain ⟨cbv0, csp0, hmain0⟩ := prepareCallArgs_clean cfg collab [] kwargs Option.none rfl
      hcsk.1 hlsrkf.1 hcbf.1 hcbf.2.1 hmemf.1 hmemf.2.1 hfnf.1 hfnf.2.1 hparser hunexp
    have hvi : validateInputs cfg.formatInstructionsKey collab.template.input_variables
        PyVal.none Option.none (mergeDefaults collab.template.default_values kwargs)
        = Except.error (PyErr.missingInput (missingAfterDefaults collab kwargs)) := by
      unfold validateInputs
      rw [show memoryKeyOf PyVal.none = Except.ok Option.none from rfl]
      exact validateInputsTail_missing_no_source _ _ _ _ hMd hne hfi
    rw [hvi] at hmain0
    exact hmain0
  · intro hMfi
    obtain ⟨cbv0, csp0, hmain0⟩ := prepareCallArgs_clean cfg collab [] kwargs Option.none rfl
      hcsk.1 hlsrkf.1 hcbf.1 hcbf.2.1 hmemf.1 hmemf.2.1 hfnf.1 hfnf.2.1 hparser hunexp
    have hvi : validateInputs cfg.formatInstructionsKey collab.template.input_variables
        PyVal.none Option.none (mergeDefaults collab.template.default_values kwargs)
        = Except.ok (setKey (mergeDefaults collab.template.default_values kwargs)
            cfg.formatInstructionsKey PyVal.none) := by
      unfold validateInputs
      rw [show memoryKeyOf PyVal.none = Except.ok Option.none from rfl]
      exact validateInputsTail_fi_only _ _ _ _ (hMd.trans hMfi)
    rw [hvi] at hmain0
    have hfiR : cfg.formatInstructionsKey ∈ collab.template.input_variables := by
      have hmem2 : cfg.formatInstructionsKey ∈ missingAfterDefaults collab kwargs := by
        rw [hMfi]
        simp
      rw [← hMd] at hmem2
      exact (List.mem_filter.mp hmem2).1
    refine ⟨(csp0, ⟨applyStopTokens cfg.stopTokens
        (setKey (mergeDefaults collab.template.default_values kwargs)
          cfg.formatInstructionsKey PyVal.none), cbv0, true⟩), hmain0, ?_⟩
    show getVal (applyStopTokens cfg.stopTokens
        (setKey (mergeDefaults collab.template.default_values kwargs)
          cfg.formatInstructionsKey PyVal.none)) cfg.formatInstructionsKey = _
    rw [getVal_applyStopTokens_ne _ _ _ (hstopR _ hfiR), getVal_setKey_self]
  · intro attrs hne hfi hattr
    obtain ⟨cbv1, csp1, hmain1⟩ := prepareCallArgs_clean cfg collab [PyVal.obj attrs] kwargs
      (some attrs) rfl
      hcsk.1 hlsrkf.1 hcbf.1 hcbf.2.1 hmemf.1 hmemf.2.1 hfnf.1 hfnf.2.1 hparser hunexp
    obtain ⟨kwf2, hv, hin, hout⟩ := validateInputsTail_with_source cfg.formatInstructionsKey
      collab.template.input_variables (mergeDefaults collab.template.default_values kwargs)
      attrs (missingAfterDefaults collab kwargs) hMd hne hfi hattr
    have hvi : validateInputs cfg.formatInstructionsKey collab.template.input_variables
        PyVal.none (some attrs) (mergeDefaults collab.template.default_values kwargs)
        = Except.ok kwf2 := by
      unfold validateInputs
      rw [show memoryKeyOf PyVal.none = Except.ok Option.none from rfl]
      exact hv
    rw [hvi] at hmain1
    refine ⟨(csp1, { inputs := applyStopTokens cfg.stopTokens kwf2, callbacks := cbv1 }),
      hmain1, ?_⟩
    intro k hk
    have hkR : k ∈ collab.template.input_variables := by
      rw [← hMd] at hk
      exact (List.mem_filter.mp hk).1
    show getVal (applyStopTokens cfg.stopTokens kwf2) k = _
    rw [getVal_applyStopTokens_ne _ _ _ (hstopR k hkR)]
    exact hin k hk
  · intro attrs k1 rest hM1 hfi hg
    obtain ⟨cbv1, csp1, hmain1⟩ := prepareCallArgs_clean cfg collab [PyVal.obj attrs] kwargs
      (some attrs) rfl
      hcsk.1 hlsrkf.1 hcbf.1 hcbf.2.1 hmemf.1 hmemf.2.1 hfnf.1 hfnf.2.1 hparser hunexp
    have hvi : validateInputs cfg.formatInstructionsKey collab.template.input_variables
        PyVal.none (some attrs) (mergeDefaults collab.template.default_values kwargs)
        = Except.error (PyErr.missingInput [k1]) := by
      unfold validateInputs
      rw [show memoryKeyOf PyVal.none = Except.ok Option.none from rfl]
      exact validateInputsTail_source_fail _ _ _ attrs k1 rest (hMd.trans hM1) hfi hg
    rw [hvi] at hmain1
    exact hmain1
  · intro mk kwf2 hne hM
    unfold validateInputs
    rw [show memoryKeyOf (PyVal.obj [("memory_key", PyVal.str mk)])
        = Except.ok (some mk) from rfl]
    exact validateInputsTail_memory_exempt _ _ _ _ mk hM hne

/-- Fixture for C5: template declaring inputs a and b with a default value for
b; no output parser. -/
def collabC5 : Collab := {
  template := { input_variables := ["a", "b"],
                default_values := [("b", PyVal.str "dflt")],
                outputParser := Option.none },
  streamingActive := false,
  chainExec := fun _ _ => Except.ok
    { output := PyVal.str "out", text := PyVal.str "out", message := PyVal.foreign "m",
      function_call_info := Option.none, function := Option.none },
  formatPrompt := fun _ => "P",
  retryExec := fun _ _ _ => Except.ok (PyVal.str "Yes") }

/-- Fixture for C5: keyword arguments supplying exactly the inputs without a
default (R minus D). -/
def kwC5 : Kw := [("a", PyVal.str "va")]

/-- C5 witness: with inputs a and b, a default for b and a keyword for a,
nothing is missing after defaulting, assembly succeeds, and each declared
input resolves to its keyword value when supplied, else its default. -/
theorem spec_c5_argument_assembly_witness :
    missingAfterDefaults collabC5 kwC5 = []
    ∧ (∃ prepared, prepareCallArgs cfgDefault collabC5 [] kwC5 = Except.ok prepared
        ∧ ∀ k, k ∈ collabC5.template.input_variables →
            getVal prepared.2.inputs k
              = (getVal kwC5 k).or (getVal collabC5.template.default_values k)) :=
  ⟨by decide,
    (spec_c5_argument_assembly cfgDefault collabC5 kwC5
      (by
        intro k hk
        have hk2 : k = "capture_stream" ∨ k = "callbacks" ∨ k = "memory" ∨ k = "functions"
            ∨ k = "stop" ∨ k = "function_call" ∨ k = "llm_selector_rule_key" := by
          rcases hk with hk | hk
          · simp only [reservedOrInternalKeys, List.mem_cons, List.not_mem_nil,
              or_false] at hk
            tauto
          · tauto
        rcases hk2 with rfl | rfl | rfl | rfl | rfl | rfl | rfl <;>
          exact ⟨by decide, by decide, by decide⟩)
      (by
        intro k hk
        rw [hasKey_iff_mem] at hk
        simp only [kwC5, List.map_cons, List.map_nil, List.mem_cons,
          List.not_mem_nil, or_false] at hk
        subst hk
        decide)
      (by
        intro k hk
        rw [hasKey_iff_mem] at hk
        simp only [collabC5, List.map_cons, List.map_nil, List.mem_cons,
          List.not_mem_nil, or_false] at hk
        subst hk
        decide)
      (fun p hp => absurd hp (by simp [collabC5]))).1 (by decide)⟩
